import Mathlib

/-!
# War estruturado (`war.c`): combat resolution and victory evaluation

A shallow embedding of the game logic of `src/war.c`.

* The map `Territorio* mapa` is a C array of `MAX_TERRITORIOS` records; it is
  embedded as a function from `Fin MAX_TERRITORIOS`, and a pointer into the
  map is an `Option (Fin MAX_TERRITORIOS)` (`none` is `NULL`).  Two pointers
  to the same record are the same index, so aliasing is represented.
* `int` is the 32-bit two's complement integer, embedded as an `Int` between
  `INT_MIN` and `INT_MAX`.  The operations on troop counts that can leave
  that range wrap around modulo `2^32`: the decrement `x -= 1` is
  `decrementar`, and the sum `total += x` goes through `wrapInt`.  The
  counters of the loops never exceed `MAX_TERRITORIOS`.
* A `char[n]` buffer holding a terminated text is a `Texto n`: a string of
  fewer than `n` characters.  `strcmp(a, b) == 0` is equality of the strings,
  and `strncpy(dst, src, n-1); dst[n-1] = 0` keeps the first `n - 1`
  characters of `src`.
* `rand()` results are inputs of the functions that draw them.
* Every `printf` is recorded as a `Mensagem` carrying its arguments.
-/

namespace War

/-- Number of territories of the map (`#define MAX_TERRITORIOS 6`). -/
abbrev MAX_TERRITORIOS : Nat := 6

/-- Size of the text buffers (`#define MAX_NOME 30`). -/
abbrev MAX_NOME : Nat := 30

/-- Smallest value of a 32-bit `int`. -/
def INT_MIN : Int := -2147483648

/-- Largest value of a 32-bit `int`. -/
def INT_MAX : Int := 2147483647

/-- The 32-bit two's complement value of an integer: its representative
modulo `2^32` between `INT_MIN` and `INT_MAX`. -/
def wrapInt (x : Int) : Int := (x + 2147483648) % 4294967296 - 2147483648

/-- Value left by `x -= 1` in a 32-bit `int`: `x - 1`, and when that is below
`INT_MIN` the result wraps around by `2^32`, so that `INT_MIN` becomes
`INT_MAX`.  A decrement cannot pass `INT_MAX`. -/
def decrementar (x : Int) : Int :=
  if x - 1 < INT_MIN then x - 1 + 4294967296 else x - 1

/-- A terminated text stored in a buffer `char[n]`: fewer than `n`
characters, the last byte of the buffer being left to the terminator. -/
structure Texto (n : Nat) where
  s : String
  cabe : s.length < n
  deriving DecidableEq

/-- The record `Territorio` of the source. -/
structure Territorio where
  nome : Texto MAX_NOME
  dono : Texto MAX_NOME
  tropas : Int
  cor : Texto MAX_NOME
  deriving DecidableEq

/-- The record `Missao` of the source. -/
structure Missao where
  idMissao : Int
  descricao : Texto 200
  targetNumber : Int
  targetColor : Texto MAX_NOME
  targetTerritorio : Texto MAX_NOME
  deriving DecidableEq

/-- The array `mapa[MAX_TERRITORIOS]`. -/
abbrev Mapa := Fin MAX_TERRITORIOS → Territorio

/-- A pointer `Territorio*` into the map; `none` is `NULL`. -/
abbrev Ponteiro := Option (Fin MAX_TERRITORIOS)

/-- The map whose records are the six entries of a list, in order. -/
def mapaDe (l : List Territorio) (h : l.length = MAX_TERRITORIOS) : Mapa :=
  fun i => l.get (i.cast h.symm)

/-- Text left in a `char[MAX_NOME]` buffer by
`strncpy(dst, src, MAX_NOME-1); dst[MAX_NOME-1] = 0`: the first
`MAX_NOME - 1` characters of `src`. -/
def strncpyNome (src : String) : Texto MAX_NOME :=
  ⟨String.mk (src.data.take (MAX_NOME - 1)), by
    show (src.data.take 29).length < 30
    rw [List.length_take]
    omega⟩

/-- The indices `0, 1, ..., MAX_TERRITORIOS - 1` visited by
`for (int i = 0; i < MAX_TERRITORIOS; i++)`. -/
def indices : List (Fin MAX_TERRITORIOS) := List.finRange MAX_TERRITORIOS

/-- Assignment `mapa[i].tropas = v` (through a pointer to record `i`). -/
def setTropas (mapa : Mapa) (i : Fin MAX_TERRITORIOS) (v : Int) : Mapa :=
  Function.update mapa i { mapa i with tropas := v }

/-- Assignment of the text `t` to the buffer `mapa[i].dono`. -/
def setDono (mapa : Mapa) (i : Fin MAX_TERRITORIOS) (t : Texto MAX_NOME) : Mapa :=
  Function.update mapa i { mapa i with dono := t }

/-- One line written by `printf` in `simularAtaque` or `faseDeAtaque`, with
the arguments of its format. -/
inductive Mensagem where
  /-- Line "Erro: territorios invalidos." -/
  | territoriosInvalidos
  /-- Line "Ataque invalido: mesmo dono." -/
  | mesmoDono
  /-- Line "Ataque invalido: territorio atacante precisa ter ao menos 2 tropas." -/
  | tropasInsuficientes
  /-- Header "--- BATALHA ---" -/
  | batalha
  /-- Line "%s (%d tropas) ataca %s (%d tropas)" -/
  | ataca (nomeA : String) (tropasA : Int) (nomeD : String) (tropasD : Int)
  /-- Line "Dado atacante: %d | Dado defensor: %d" -/
  | dados (dadoA dadoD : Int)
  /-- Line "Resultado: defensor perde 1 tropa (agora %d)." -/
  | defensorPerde (agora : Int)
  /-- Line "Território %s conquistado por %s!" -/
  | conquistado (nome dono : String)
  /-- Line "Resultado: atacante perde 1 tropa (agora %d)." -/
  | atacantePerde (agora : Int)
  /-- Prompt "Digite o nome do territorio de origem: " -/
  | pedeOrigem
  /-- Prompt "Digite o nome do territorio de destino: " -/
  | pedeDestino
  /-- Line "Entrada invalida." -/
  | entradaInvalida
  /-- Line "Um ou ambos os territorios nao encontrados." -/
  | naoEncontrados
  deriving DecidableEq

/-- A die: `rand() % 6 + 1`, for the value `r` returned by `rand()`. -/
def dado (r : Nat) : Int := ((r % 6 : Nat) : Int) + 1

/-- Search of `buscarTerritorioPorNome`: the first index whose `nome` equals
`nome`, or `NULL`. -/
def buscarTerritorioPorNome (mapa : Mapa) (nome : String) : Ponteiro :=
  indices.find? (fun i => decide ((mapa i).nome.s = nome))

/-- One battle, `simularAtaque(atacante, defensor)`, on the map the two
pointers point into.  `rA` and `rD` are the values of the two calls of
`rand()`, drawn only when the attack passes the three checks.  Returns the map
after the call and the lines printed. -/
def simularAtaque (mapa : Mapa) (atacante defensor : Ponteiro) (rA rD : Nat) :
    Mapa × List Mensagem :=
  match atacante, defensor with
  | some a, some d =>
    if (mapa a).dono.s = (mapa d).dono.s then
      (mapa, [Mensagem.mesmoDono])
    else if (mapa a).tropas < 2 then
      (mapa, [Mensagem.tropasInsuficientes])
    else
      let cabecalho := [Mensagem.batalha,
        Mensagem.ataca (mapa a).nome.s (mapa a).tropas (mapa d).nome.s (mapa d).tropas]
      let dadoA := dado rA
      let dadoD := dado rD
      let rolagem := [Mensagem.dados dadoA dadoD]
      if dadoA > dadoD then
        -- defensor->tropas -= 1;
        let m1 := setTropas mapa d (decrementar (mapa d).tropas)
        let perde := [Mensagem.defensorPerde (m1 d).tropas]
        if (m1 d).tropas ≤ 0 then
          let conquista := [Mensagem.conquistado (m1 d).nome.s (m1 a).dono.s]
          -- strncpy(defensor->dono, atacante->dono, MAX_NOME-1); terminator
          let m2 := setDono m1 d (strncpyNome (m1 a).dono.s)
          -- defensor->tropas = 1;
          let m3 := setTropas m2 d 1
          -- atacante->tropas -= 1;
          let m4 := setTropas m3 a (decrementar (m3 a).tropas)
          (m4, cabecalho ++ rolagem ++ perde ++ conquista)
        else
          (m1, cabecalho ++ rolagem ++ perde)
      else
        -- atacante->tropas -= 1;
        let m1 := setTropas mapa a (decrementar (mapa a).tropas)
        (m1, cabecalho ++ rolagem ++ [Mensagem.atacantePerde (m1 a).tropas])
  | _, _ => (mapa, [Mensagem.territoriosInvalidos])

/-- The attack phase `faseDeAtaque(mapa)`.  `origem` and `destino` are the
tokens read into `char[MAX_NOME]` buffers by the two `scanf("%29s", ...)`,
`none` when the read fails; `rA`
and `rD` are the values `rand()` returns if the battle is fought. -/
def faseDeAtaque (mapa : Mapa) (origem destino : Option (Texto MAX_NOME)) (rA rD : Nat) :
    Mapa × List Mensagem :=
  match origem with
  | none => (mapa, [Mensagem.pedeOrigem, Mensagem.entradaInvalida])
  | some o =>
    match destino with
    | none => (mapa, [Mensagem.pedeOrigem, Mensagem.pedeDestino, Mensagem.entradaInvalida])
    | some dst =>
      let tOrigem := buscarTerritorioPorNome mapa o.s
      let tDestino := buscarTerritorioPorNome mapa dst.s
      if tOrigem = none ∨ tDestino = none then
        (mapa, [Mensagem.pedeOrigem, Mensagem.pedeDestino, Mensagem.naoEncontrados])
      else
        let r := simularAtaque mapa tOrigem tDestino rA rD
        (r.1, [Mensagem.pedeOrigem, Mensagem.pedeDestino] ++ r.2)

/-- One attack request of the player: what the two reads of `faseDeAtaque`
return and what the two calls of `rand()` return. -/
structure Pedido where
  origem : Option (Texto MAX_NOME)
  destino : Option (Texto MAX_NOME)
  rA : Nat
  rD : Nat
  deriving DecidableEq

/-- The map after a sequence of attack requests (menu option 2, repeated),
each served by `faseDeAtaque`. -/
def jogar (mapa : Mapa) : List Pedido → Mapa
  | [] => mapa
  | p :: ps => jogar (faseDeAtaque mapa p.origem p.destino p.rA p.rD).1 ps

/-- Loop `for i: if (strcmp(mapa[i].dono, "Jogador") == 0) cont++;` of
mission 0.  The counter is at most `MAX_TERRITORIOS`. -/
def contarJogador (mapa : Mapa) : Int :=
  indices.foldl (fun cont i => if (mapa i).dono.s = "Jogador" then cont + 1 else cont) 0

/-- Loop `for i: if (strcmp(mapa[i].dono, "Jogador") == 0) total += mapa[i].tropas;`
of mission 1; `total` is a 32-bit `int`. -/
def somarTropasJogador (mapa : Mapa) : Int :=
  indices.foldl
    (fun total i =>
      if (mapa i).dono.s = "Jogador" then wrapInt (total + (mapa i).tropas) else total) 0

/-- Loop of mission 4: counts the records whose `dono` is "Jogador" and whose
`cor` is `cor`.  The counter is at most `MAX_TERRITORIOS`. -/
def contarJogadorDaCor (mapa : Mapa) (cor : String) : Int :=
  indices.foldl
    (fun cont i =>
      if (mapa i).dono.s = "Jogador" ∧ (mapa i).cor.s = cor then cont + 1 else cont) 0

/-- The C value of a comparison: 1 when it holds, 0 otherwise. -/
def boolInt (b : Bool) : Int := if b then 1 else 0

/-- Victory check `verificarVitoria(mapa, m)`; either pointer may be `NULL`.
The `switch (m->idMissao)` is the chain of tests on `idMissao`, its `default`
the last branch.  The result is the `int` returned. -/
def verificarVitoria (mapa : Option Mapa) (m : Option Missao) : Int :=
  match mapa, m with
  | some mapa, some m =>
    if m.idMissao = 0 then
      boolInt (decide (contarJogador mapa ≥ m.targetNumber))
    else if m.idMissao = 1 then
      boolInt (decide (somarTropasJogador mapa ≥ m.targetNumber))
    else if m.idMissao = 2 then
      -- for i: if (strcmp(mapa[i].dono, "Inimigo") == 0) return 0;  return 1;
      match indices.find? (fun i => decide ((mapa i).dono.s = "Inimigo")) with
      | some _ => 0
      | none => 1
    else if m.idMissao = 3 then
      -- for i: if (strcmp(mapa[i].nome, target) == 0) return dono == "Jogador";
      match indices.find? (fun i => decide ((mapa i).nome.s = m.targetTerritorio.s)) with
      | some i => boolInt (decide ((mapa i).dono.s = "Jogador"))
      | none => 0
    else if m.idMissao = 4 then
      boolInt (decide (contarJogadorDaCor mapa m.targetColor.s ≥ m.targetNumber))
    else 0
  | _, _ => 0

/-- Number of colours, `sizeof(CORES_POSSIVEIS) / sizeof(CORES_POSSIVEIS[0])`. -/
abbrev NUM_CORES : Nat := 6

/-- The table `NOMES_TERRITORIOS`. -/
def NOMES_TERRITORIOS : Fin MAX_TERRITORIOS → String :=
  fun i => ["America", "Oceania", "Europa", "Asia", "Africa", "Antartida"].get (i.cast rfl)

/-- The table `CORES_POSSIVEIS`. -/
def CORES_POSSIVEIS : Fin NUM_CORES → String :=
  fun i => ["Vermelho", "Verde", "Azul", "Amarelo", "Ciano", "Preto"].get (i.cast rfl)

/-- The index `rand() % n` into a table of `n` entries, for the value `r`
returned by `rand()`. -/
def indiceSorteado (n : Nat) (h : 0 < n) (r : Nat) : Fin n := ⟨r % n, Nat.mod_lt r h⟩

/-- The colour returned by `gerarCorAleatoria`, for the value `r` returned by
its call of `rand()`. -/
def gerarCorAleatoria (r : Nat) : String :=
  CORES_POSSIVEIS (indiceSorteado NUM_CORES (by decide) r)

/-- Text left in the buffer `descricao` by `snprintf(m.descricao, 200, ...)`
for the formatted text `s`: its first 199 characters. -/
def snprintfDescricao (s : String) : Texto 200 :=
  ⟨String.mk (s.data.take 199), by
    show (s.data.take 199).length < 200
    rw [List.length_take]
    omega⟩

/-- Assignment of the text `t` to the buffer `mapa[i].nome`. -/
def setNome (mapa : Mapa) (i : Fin MAX_TERRITORIOS) (t : Texto MAX_NOME) : Mapa :=
  Function.update mapa i { mapa i with nome := t }

/-- Assignment of the text `t` to the buffer `mapa[i].cor`. -/
def setCor (mapa : Mapa) (i : Fin MAX_TERRITORIOS) (t : Texto MAX_NOME) : Mapa :=
  Function.update mapa i { mapa i with cor := t }

/-- Mission drawn by `sortearMissao`.  `r0` is the value of the first call of
`rand()`; `r1` and `r2` are the values of the next calls, made only by the
kinds that draw parameters (one call for kind 3, two for kind 4).  The
`switch (m.idMissao)` is the chain of tests, its `default` the last branch. -/
def sortearMissao (r0 r1 r2 : Nat) : Missao :=
  -- memset(&m, 0, sizeof(Missao));
  let m0 : Missao := ⟨0, ⟨"", by decide⟩, 0, ⟨"", by decide⟩, ⟨"", by decide⟩⟩
  -- m.idMissao = rand() % 5;
  let m1 : Missao := { m0 with idMissao := ((r0 % 5 : Nat) : Int) }
  if m1.idMissao = 0 then
    let m2 : Missao := { m1 with targetNumber := 3 }
    let texto := "Conquistar " ++ toString m2.targetNumber ++ " territorios (posse total)."
    { m2 with descricao := snprintfDescricao texto }
  else if m1.idMissao = 1 then
    let m2 : Missao := { m1 with targetNumber := 12 }
    let texto := "Controlar pelo menos " ++ toString m2.targetNumber ++ " tropas no total."
    { m2 with descricao := snprintfDescricao texto }
  else if m1.idMissao = 2 then
    let texto := "Destruir todo o exército inimigo (nenhum territorio do inimigo)."
    { m1 with descricao := snprintfDescricao texto }
  else if m1.idMissao = 3 then
    -- int idx = rand() % MAX_TERRITORIOS;
    let idx := indiceSorteado MAX_TERRITORIOS (by decide) r1
    let m2 : Missao := { m1 with targetTerritorio := strncpyNome (NOMES_TERRITORIOS idx) }
    let texto := "Conquistar o territorio \x27" ++ m2.targetTerritorio.s ++ "\x27."
    { m2 with descricao := snprintfDescricao texto }
  else if m1.idMissao = 4 then
    -- int colorIdx = rand() % NUM_CORES;  int need = 2 + (rand() % 2);
    let colorIdx := indiceSorteado NUM_CORES (by decide) r1
    let need : Int := 2 + ((r2 % 2 : Nat) : Int)
    let m2 : Missao := { m1 with targetColor := strncpyNome (CORES_POSSIVEIS colorIdx) }
    let m3 : Missao := { m2 with targetNumber := need }
    let texto := "Controlar " ++ toString m3.targetNumber ++ " territorios da cor "
      ++ m3.targetColor.s ++ "."
    { m3 with descricao := snprintfDescricao texto }
  else
    { m1 with descricao := ⟨"Missao desconhecida.", by decide⟩ }

/-- State of the loop of `inicializarTerritorios`: the map, the counter
`contadorJogador` and the number of calls of `rand()` made so far. -/
structure EstadoInicial where
  mapa : Mapa
  contadorJogador : Int
  sorteios : Nat

/-- Body of the loop of `inicializarTerritorios` at index `i`; `rand k` is
the value returned by the call number `k` of `rand()`, counted from 0. -/
def inicializarPasso (rand : Nat → Nat) (st : EstadoInicial) (i : Fin MAX_TERRITORIOS) :
    EstadoInicial :=
  -- strncpy(mapa[i].nome, NOMES_TERRITORIOS[i], MAX_NOME-1); terminator
  let m1 := setNome st.mapa i (strncpyNome (NOMES_TERRITORIOS i))
  -- if (rand() % 100 < 50) { dono = "Jogador"; contadorJogador++; } else dono = "Inimigo";
  let sorteado := rand st.sorteios % 100 < 50
  let m2 := if sorteado then setDono m1 i ⟨"Jogador", by decide⟩
    else setDono m1 i ⟨"Inimigo", by decide⟩
  let contador := if sorteado then st.contadorJogador + 1 else st.contadorJogador
  -- mapa[i].tropas = rand() % 8 + 1;
  let m3 := setTropas m2 i (((rand (st.sorteios + 1) % 8 : Nat) : Int) + 1)
  -- cor = gerarCorAleatoria(); strncpy(mapa[i].cor, cor, MAX_NOME-1); terminator
  let m4 := setCor m3 i (strncpyNome (gerarCorAleatoria (rand (st.sorteios + 2))))
  ⟨m4, contador, st.sorteios + 3⟩

/-- Setup `inicializarTerritorios(mapa)`; `rand k` is the value returned by
the call number `k` of `rand()`, counted from 0.  Returns the map filled. -/
def inicializarTerritorios (mapa : Mapa) (rand : Nat → Nat) : Mapa :=
  let st := indices.foldl (inicializarPasso rand) ⟨mapa, 0, 0⟩
  -- if (contadorJogador == 0) strcpy(mapa[0].dono, "Jogador");
  if st.contadorJogador = 0 then setDono st.mapa 0 ⟨"Jogador", by decide⟩ else st.mapa

/-! ## Concrete data used to evaluate the definitions -/

/-- The record with the given texts and troop count. -/
def territorio (nome dono : String) (tropas : Int) (cor : String)
    (hn : nome.length < MAX_NOME) (hd : dono.length < MAX_NOME)
    (hc : cor.length < MAX_NOME) : Territorio :=
  ⟨⟨nome, hn⟩, ⟨dono, hd⟩, tropas, ⟨cor, hc⟩⟩

/-- A map with three records of each owner; America has 2 troops, Oceania 1,
Europa 1, Asia 5, Africa 3 and Antartida 0. -/
def mapaExemplo : Mapa :=
  mapaDe
    [territorio "America" "Jogador" 2 "Azul" (by decide) (by decide) (by decide),
     territorio "Oceania" "Inimigo" 1 "Verde" (by decide) (by decide) (by decide),
     territorio "Europa" "Jogador" 1 "Azul" (by decide) (by decide) (by decide),
     territorio "Asia" "Inimigo" 5 "Preto" (by decide) (by decide) (by decide),
     territorio "Africa" "Jogador" 3 "Ciano" (by decide) (by decide) (by decide),
     territorio "Antartida" "Inimigo" 0 "Verde" (by decide) (by decide) (by decide)]
    rfl

/-- The map `mapaExemplo` after Europa has passed to the other owner: two
records of "Jogador" are left. -/
def mapaDoisDoJogador : Mapa := setDono mapaExemplo 2 ⟨"Inimigo", by decide⟩

/-- A map in which the six territories belong to "Jogador". -/
def mapaTodoDoJogador : Mapa :=
  mapaDe
    [territorio "America" "Jogador" 2 "Azul" (by decide) (by decide) (by decide),
     territorio "Oceania" "Jogador" 1 "Verde" (by decide) (by decide) (by decide),
     territorio "Europa" "Jogador" 1 "Azul" (by decide) (by decide) (by decide),
     territorio "Asia" "Jogador" 5 "Preto" (by decide) (by decide) (by decide),
     territorio "Africa" "Jogador" 3 "Ciano" (by decide) (by decide) (by decide),
     territorio "Antartida" "Jogador" 1 "Verde" (by decide) (by decide) (by decide)]
    rfl

/-- The mission with the given discriminant and target number, and empty
texts. -/
def missaoNumero (idMissao targetNumber : Int) : Missao :=
  ⟨idMissao, ⟨"", by decide⟩, targetNumber, ⟨"", by decide⟩, ⟨"", by decide⟩⟩

/-- Three attack requests: America conquers Oceania, Asia hits Africa, and
a request whose origin is not a territory. -/
def pedidosExemplo : List Pedido :=
  [⟨some ⟨"America", by decide⟩, some ⟨"Oceania", by decide⟩, 5, 0⟩,
   ⟨some ⟨"Asia", by decide⟩, some ⟨"Africa", by decide⟩, 4, 1⟩,
   ⟨some ⟨"Atlantida", by decide⟩, some ⟨"Africa", by decide⟩, 3, 3⟩]

/-- The map `mapaExemplo` with 4 troops in Antartida: every record has at
least 1 troop, and the total is 16. -/
def mapaPovoado : Mapa := setTropas mapaExemplo 5 4

/-- The request of an attack from `origem` on `destino` with the draws `rA`
and `rD`. -/
def pedido (origem destino : String) (rA rD : Nat)
    (ho : origem.length < MAX_NOME) (hd : destino.length < MAX_NOME) : Pedido :=
  ⟨some ⟨origem, ho⟩, some ⟨destino, hd⟩, rA, rD⟩

/-! ## Notions of the specification -/

/-- The invariant of the specification on a map: no record has a negative
troop count and every owner is "Jogador" or "Inimigo". -/
def invariante (mapa : Mapa) : Prop :=
  ∀ i, 0 ≤ (mapa i).tropas ∧ ((mapa i).dono.s = "Jogador" ∨ (mapa i).dono.s = "Inimigo")

instance invarianteDecidable (mapa : Mapa) : Decidable (invariante mapa) := by
  unfold invariante
  infer_instance

/-- Number of territories of the map whose owner is "Jogador". -/
def numJogador (mapa : Mapa) : Nat :=
  (Finset.univ.filter (fun i => (mapa i).dono.s = "Jogador")).card

/-- Sum of the troops of the territories whose owner is "Jogador". -/
def tropasDoJogador (mapa : Mapa) : Int :=
  ∑ i in Finset.univ.filter (fun i => (mapa i).dono.s = "Jogador"), (mapa i).tropas

/-- Number of territories whose owner is "Jogador" and whose colour is
`cor`. -/
def numJogadorDaCor (mapa : Mapa) (cor : String) : Nat :=
  (Finset.univ.filter
    (fun i => (mapa i).dono.s = "Jogador" ∧ (mapa i).cor.s = cor)).card

/-- Number of territories whose colour is `cor`, whoever owns them. -/
def numDaCor (mapa : Mapa) (cor : String) : Nat :=
  (Finset.univ.filter (fun i => (mapa i).cor.s = cor)).card

/-- The names of the territories of the map are pairwise distinct. -/
def nomesDistintos (mapa : Mapa) : Prop :=
  ∀ i j, (mapa i).nome.s = (mapa j).nome.s → i = j

instance nomesDistintosDecidable (mapa : Mapa) : Decidable (nomesDistintos mapa) := by
  unfold nomesDistintos
  infer_instance

/-- Sum of the troops of all the territories of the map. -/
def totalTropas (mapa : Mapa) : Int := ∑ i, (mapa i).tropas

/-- The battle between the records pointed to passes the three checks of
`simularAtaque`: no pointer is `NULL`, the owners differ and the attacker has
at least 2 troops. -/
def passaValidacao (mapa : Mapa) (atacante defensor : Ponteiro) : Prop :=
  match atacante, defensor with
  | some a, some d => (mapa a).dono.s ≠ (mapa d).dono.s ∧ 2 ≤ (mapa a).tropas
  | _, _ => False

instance passaValidacaoDecidable (mapa : Mapa) (atacante defensor : Ponteiro) :
    Decidable (passaValidacao mapa atacante defensor) := by
  unfold passaValidacao
  split <;> infer_instance

/-- An attack request is accepted, that is, not rejected: both names are read
and found, and the battle between the records found passes the checks. -/
def aceito (mapa : Mapa) (p : Pedido) : Prop :=
  match p.origem, p.destino with
  | some o, some d =>
    passaValidacao mapa (buscarTerritorioPorNome mapa o.s) (buscarTerritorioPorNome mapa d.s)
  | _, _ => False

instance aceitoDecidable (mapa : Mapa) (p : Pedido) : Decidable (aceito mapa p) := by
  unfold aceito
  split <;> infer_instance

/-- Number of accepted requests in a sequence of requests served in order
from the map `mapa`. -/
def numAceitos : Mapa → List Pedido → Nat
  | _, [] => 0
  | mapa, p :: ps =>
    (if aceito mapa p then 1 else 0)
      + numAceitos (faseDeAtaque mapa p.origem p.destino p.rA p.rD).1 ps

/-! ## Auxiliary facts -/

theorem Texto.eq_iff {n : Nat} (t u : Texto n) : t = u ↔ t.s = u.s := by
  constructor
  · intro h; rw [h]
  · intro h
    cases t; cases u
    simp only [Texto.mk.injEq]
    exact h

theorem strncpyNome_texto (t : Texto MAX_NOME) : strncpyNome t.s = t := by
  rw [Texto.eq_iff]
  have h : t.s.length < 30 := t.cabe
  have hl : t.s.data.length ≤ 29 := by
    have e : t.s.length = t.s.data.length := rfl
    omega
  show String.mk (t.s.data.take 29) = t.s
  rw [List.take_of_length_le hl]

theorem setTropas_mesmo (mapa : Mapa) (i : Fin MAX_TERRITORIOS) (v : Int) :
    setTropas mapa i v i = { mapa i with tropas := v } := by
  simp [setTropas]

theorem setTropas_outro (mapa : Mapa) (i j : Fin MAX_TERRITORIOS) (v : Int) (h : j ≠ i) :
    setTropas mapa i v j = mapa j := by
  simp [setTropas, Function.update, h]

theorem setDono_mesmo (mapa : Mapa) (i : Fin MAX_TERRITORIOS) (t : Texto MAX_NOME) :
    setDono mapa i t i = { mapa i with dono := t } := by
  simp [setDono]

theorem setDono_outro (mapa : Mapa) (i j : Fin MAX_TERRITORIOS) (t : Texto MAX_NOME)
    (h : j ≠ i) : setDono mapa i t j = mapa j := by
  simp [setDono, Function.update, h]

/-- Above `INT_MIN` the decrement does not wrap. -/
theorem decrementar_eq (x : Int) (h : INT_MIN < x) : decrementar x = x - 1 := by
  unfold decrementar
  unfold INT_MIN at h ⊢
  split_ifs <;> omega

/-- On a 32-bit `int`, the decrement is the 32-bit value of `x - 1`. -/
theorem decrementar_wrapInt (x : Int) (h1 : INT_MIN ≤ x) (h2 : x ≤ INT_MAX) :
    decrementar x = wrapInt (x - 1) := by
  unfold decrementar wrapInt
  unfold INT_MIN at h1 ⊢
  unfold INT_MAX at h2
  split_ifs <;> omega

/-- The decrement of `INT_MIN` is `INT_MAX`. -/
theorem decrementar_INT_MIN : decrementar INT_MIN = INT_MAX := by
  decide

theorem dado_intervalo (r : Nat) : 1 ≤ dado r ∧ dado r ≤ 6 := by
  unfold dado
  omega

/-- Different owners are held by different records. -/
theorem indices_distintos (mapa : Mapa) (a d : Fin MAX_TERRITORIOS)
    (h : (mapa a).dono ≠ (mapa d).dono) : a ≠ d := by
  intro e
  exact h (by rw [e])

/-! ## The claims -/

/-- C1, as stated, fails at the smallest `int`: when the defender holds
`INT_MIN` troops, which is at most 1, its decrement wraps around to `INT_MAX`,
the test `tropas <= 0` fails and there is no conquest: the defender keeps its
owner and the attacker its 2 troops. -/
theorem simularAtaque_conquista_estouro :
    (setTropas mapaExemplo 1 INT_MIN 1).tropas ≤ 1 ∧
    2 ≤ (setTropas mapaExemplo 1 INT_MIN 0).tropas ∧
    (setTropas mapaExemplo 1 INT_MIN 0).dono ≠ (setTropas mapaExemplo 1 INT_MIN 1).dono ∧
    dado 5 > dado 0 ∧
    ((simularAtaque (setTropas mapaExemplo 1 INT_MIN) (some 0) (some 1) 5 0).1 1).dono
      ≠ (setTropas mapaExemplo 1 INT_MIN 0).dono ∧
    ((simularAtaque (setTropas mapaExemplo 1 INT_MIN) (some 0) (some 1) 5 0).1 1).tropas
      = INT_MAX ∧
    ((simularAtaque (setTropas mapaExemplo 1 INT_MIN) (some 0) (some 1) 5 0).1 0).tropas
      = 2 := by
  decide

/-- C1, amended. Conquest: an attacker with at least 2 troops that rolls
higher than a defender of another owner holding at most 1 troop and more than
`INT_MIN` takes the territory: the defender gets the owner of the attacker and
exactly 1 troop, and the attacker loses exactly 1 troop and keeps its owner. -/
theorem simularAtaque_conquista (mapa : Mapa) (a d : Fin MAX_TERRITORIOS) (rA rD : Nat)
    (hdono : (mapa a).dono ≠ (mapa d).dono) (ha : 2 ≤ (mapa a).tropas)
    (hd : (mapa d).tropas ≤ 1) (hmin : INT_MIN < (mapa d).tropas)
    (hdados : dado rA > dado rD) :
    ((simularAtaque mapa (some a) (some d) rA rD).1 d).dono = (mapa a).dono ∧
    ((simularAtaque mapa (some a) (some d) rA rD).1 d).tropas = 1 ∧
    ((simularAtaque mapa (some a) (some d) rA rD).1 a).tropas = (mapa a).tropas - 1 ∧
    ((simularAtaque mapa (some a) (some d) rA rD).1 a).dono = (mapa a).dono := by
  have had : a ≠ d := indices_distintos mapa a d hdono
  have hs : ¬ (mapa a).dono.s = (mapa d).dono.s := fun e => hdono ((Texto.eq_iff _ _).2 e)
  have h2 : ¬ (mapa a).tropas < 2 := not_lt.mpr ha
  have hdd : decrementar (mapa d).tropas = (mapa d).tropas - 1 := decrementar_eq _ hmin
  have hda1 : decrementar (mapa a).tropas = (mapa a).tropas - 1 :=
    decrementar_eq _ (by unfold INT_MIN; omega)
  have hc : (mapa d).tropas - 1 ≤ 0 := by omega
  have hda : d ≠ a := Ne.symm had
  simp [simularAtaque, hs, h2, hdados, setTropas_mesmo, hdd, hda1, hc,
    setTropas_outro _ _ _ _ had, setTropas_outro _ _ _ _ hda, setDono_mesmo,
    setDono_outro _ _ _ _ had, setDono_outro _ _ _ _ hda, strncpyNome_texto]

/-- Witness of C1 on the example of the specification: America (2 troops,
dice 6) conquers Oceania (1 troop, dice 1). -/
theorem simularAtaque_conquista_witness :
    ((simularAtaque mapaExemplo (some 0) (some 1) 5 0).1 1).dono = (mapaExemplo 0).dono ∧
    ((simularAtaque mapaExemplo (some 0) (some 1) 5 0).1 1).tropas = 1 ∧
    ((simularAtaque mapaExemplo (some 0) (some 1) 5 0).1 0).tropas
      = (mapaExemplo 0).tropas - 1 ∧
    ((simularAtaque mapaExemplo (some 0) (some 1) 5 0).1 0).dono = (mapaExemplo 0).dono :=
  simularAtaque_conquista mapaExemplo 0 1 5 0 (by decide) (by decide) (by decide) (by decide)
    (by decide)

/-- C2. Ties favour the defender: when the defender rolls at least as high as
an attacker of another owner holding at least 2 troops, the attacker loses
exactly 1 troop and keeps its owner, and the record of the defender (troops
and owner included) is unchanged. -/
theorem simularAtaque_defensor_vence (mapa : Mapa) (a d : Fin MAX_TERRITORIOS) (rA rD : Nat)
    (hdono : (mapa a).dono ≠ (mapa d).dono) (ha : 2 ≤ (mapa a).tropas)
    (hdados : dado rD ≥ dado rA) :
    ((simularAtaque mapa (some a) (some d) rA rD).1 a).tropas = (mapa a).tropas - 1 ∧
    ((simularAtaque mapa (some a) (some d) rA rD).1 d).tropas = (mapa d).tropas ∧
    ((simularAtaque mapa (some a) (some d) rA rD).1 d).dono = (mapa d).dono ∧
    ((simularAtaque mapa (some a) (some d) rA rD).1 a).dono = (mapa a).dono := by
  have had : a ≠ d := indices_distintos mapa a d hdono
  have hda : d ≠ a := Ne.symm had
  have hs : ¬ (mapa a).dono.s = (mapa d).dono.s := fun e => hdono ((Texto.eq_iff _ _).2 e)
  have h2 : ¬ (mapa a).tropas < 2 := not_lt.mpr ha
  have hn : ¬ dado rA > dado rD := not_lt.mpr hdados
  have hda1 : decrementar (mapa a).tropas = (mapa a).tropas - 1 :=
    decrementar_eq _ (by unfold INT_MIN; omega)
  simp [simularAtaque, hs, h2, hn, hda1, setTropas_mesmo, setTropas_outro _ _ _ _ hda]

/-- Witness of C2 on the example of the specification: Africa (3 troops,
dice 3) attacks Asia (5 troops, dice 3). -/
theorem simularAtaque_defensor_vence_witness :
    ((simularAtaque mapaExemplo (some 4) (some 3) 2 2).1 4).tropas
      = (mapaExemplo 4).tropas - 1 ∧
    ((simularAtaque mapaExemplo (some 4) (some 3) 2 2).1 3).tropas = (mapaExemplo 3).tropas ∧
    ((simularAtaque mapaExemplo (some 4) (some 3) 2 2).1 3).dono = (mapaExemplo 3).dono ∧
    ((simularAtaque mapaExemplo (some 4) (some 3) 2 2).1 4).dono = (mapaExemplo 4).dono :=
  simularAtaque_defensor_vence mapaExemplo 4 3 2 2 (by decide) (by decide) (by decide)

/-- C3. Hit without conquest: when an attacker with at least 2 troops rolls
higher than a defender of another owner holding at least 2 troops, the
defender loses exactly 1 troop and keeps its owner, and the troops and owner
of the attacker are unchanged. -/
theorem simularAtaque_acerto (mapa : Mapa) (a d : Fin MAX_TERRITORIOS) (rA rD : Nat)
    (hdono : (mapa a).dono ≠ (mapa d).dono) (ha : 2 ≤ (mapa a).tropas)
    (hd : 2 ≤ (mapa d).tropas) (hdados : dado rA > dado rD) :
    ((simularAtaque mapa (some a) (some d) rA rD).1 d).tropas = (mapa d).tropas - 1 ∧
    ((simularAtaque mapa (some a) (some d) rA rD).1 d).dono = (mapa d).dono ∧
    ((simularAtaque mapa (some a) (some d) rA rD).1 a).tropas = (mapa a).tropas ∧
    ((simularAtaque mapa (some a) (some d) rA rD).1 a).dono = (mapa a).dono := by
  have had : a ≠ d := indices_distintos mapa a d hdono
  have hs : ¬ (mapa a).dono.s = (mapa d).dono.s := fun e => hdono ((Texto.eq_iff _ _).2 e)
  have h2 : ¬ (mapa a).tropas < 2 := not_lt.mpr ha
  have hdd : decrementar (mapa d).tropas = (mapa d).tropas - 1 :=
    decrementar_eq _ (by unfold INT_MIN; omega)
  have hc : ¬ (mapa d).tropas - 1 ≤ 0 := by omega
  simp [simularAtaque, hs, h2, hdados, hdd, hc, setTropas_mesmo,
    setTropas_outro _ _ _ _ had]

/-- Witness of C3: Africa (3 troops, dice 6) hits Asia (5 troops, dice 1). -/
theorem simularAtaque_acerto_witness :
    ((simularAtaque mapaExemplo (some 4) (some 3) 5 0).1 3).tropas
      = (mapaExemplo 3).tropas - 1 ∧
    ((simularAtaque mapaExemplo (some 4) (some 3) 5 0).1 3).dono = (mapaExemplo 3).dono ∧
    ((simularAtaque mapaExemplo (some 4) (some 3) 5 0).1 4).tropas = (mapaExemplo 4).tropas ∧
    ((simularAtaque mapaExemplo (some 4) (some 3) 5 0).1 4).dono = (mapaExemplo 4).dono :=
  simularAtaque_acerto mapaExemplo 4 3 5 0 (by decide) (by decide) (by decide) (by decide)

/-- With a `NULL` pointer, equal owners or an attacker of fewer than 2
troops, `simularAtaque` returns the map it was given. -/
theorem simularAtaque_rejeitado (mapa : Mapa) (atacante defensor : Ponteiro) (rA rD : Nat)
    (h : atacante = none ∨ defensor = none ∨
      ∃ a d, atacante = some a ∧ defensor = some d ∧
        ((mapa a).dono = (mapa d).dono ∨ (mapa a).tropas < 2)) :
    (simularAtaque mapa atacante defensor rA rD).1 = mapa := by
  rcases h with h | h | ⟨a, d, ha, hd, h⟩
  · subst h
    simp [simularAtaque]
  · subst h
    cases atacante <;> simp [simularAtaque]
  · subst ha hd
    by_cases hs : (mapa a).dono.s = (mapa d).dono.s
    · simp [simularAtaque, hs]
    · have ht : (mapa a).tropas < 2 := by
        rcases h with h | h
        · exact absurd ((Texto.eq_iff _ _).1 h) hs
        · exact h
      simp [simularAtaque, hs, ht]

/-- C4. A rejected attack request is atomic: when a name is not found, the two
territories found have the same owner, or the attacker found has fewer than 2
troops, the map after `faseDeAtaque` is the map before it. -/
theorem faseDeAtaque_rejeitado_atomico (mapa : Mapa) (origem destino : Texto MAX_NOME)
    (rA rD : Nat)
    (h : buscarTerritorioPorNome mapa origem.s = none ∨
      buscarTerritorioPorNome mapa destino.s = none ∨
      ∃ a d, buscarTerritorioPorNome mapa origem.s = some a ∧
        buscarTerritorioPorNome mapa destino.s = some d ∧
        ((mapa a).dono = (mapa d).dono ∨ (mapa a).tropas < 2)) :
    (faseDeAtaque mapa (some origem) (some destino) rA rD).1 = mapa := by
  by_cases hn : buscarTerritorioPorNome mapa origem.s = none ∨
      buscarTerritorioPorNome mapa destino.s = none
  · simp [faseDeAtaque, hn]
  · simp only [faseDeAtaque, hn, if_false]
    exact simularAtaque_rejeitado mapa _ _ rA rD h

/-- Witness of C4: Oceania, with 1 troop, may not attack America. -/
theorem faseDeAtaque_rejeitado_atomico_witness :
    (faseDeAtaque mapaExemplo (some ⟨"Oceania", by decide⟩) (some ⟨"America", by decide⟩)
      5 0).1 = mapaExemplo :=
  faseDeAtaque_rejeitado_atomico mapaExemplo ⟨"Oceania", by decide⟩ ⟨"America", by decide⟩ 5 0
    (Or.inr (Or.inr ⟨1, 0, by decide, by decide, Or.inr (by decide)⟩))

/-- C5, as stated, fails: Europa has exactly 1 troop and attacks America,
which has the same owner; the line printed is the one of the same-owner check,
not the one of the troop check. -/
theorem simularAtaque_uma_tropa_mesmo_dono :
    (mapaExemplo 2).tropas = 1 ∧
    (simularAtaque mapaExemplo (some 2) (some 0) 5 0).2 = [Mensagem.mesmoDono] ∧
    (simularAtaque mapaExemplo (some 2) (some 0) 5 0).2 ≠ [Mensagem.tropasInsuficientes] := by
  decide

/-- C5, amended. An attacker with exactly 1 troop is always rejected and the
map is left as it was; the rejection reported is the insufficient-troops one
when the two owners differ, and the same-owner one when they are equal. -/
theorem simularAtaque_uma_tropa (mapa : Mapa) (a d : Fin MAX_TERRITORIOS) (rA rD : Nat)
    (h1 : (mapa a).tropas = 1) :
    (simularAtaque mapa (some a) (some d) rA rD).1 = mapa ∧
    ((mapa a).dono ≠ (mapa d).dono →
      (simularAtaque mapa (some a) (some d) rA rD).2 = [Mensagem.tropasInsuficientes]) ∧
    ((mapa a).dono = (mapa d).dono →
      (simularAtaque mapa (some a) (some d) rA rD).2 = [Mensagem.mesmoDono]) := by
  have ht : (mapa a).tropas < 2 := by omega
  refine ⟨simularAtaque_rejeitado mapa _ _ rA rD
    (Or.inr (Or.inr ⟨a, d, rfl, rfl, Or.inr ht⟩)), ?_, ?_⟩
  · intro hne
    have hs : ¬ (mapa a).dono.s = (mapa d).dono.s := fun e => hne ((Texto.eq_iff _ _).2 e)
    simp [simularAtaque, hs, ht]
  · intro he
    simp [simularAtaque, he]

/-- Witness of C5, amended: Oceania, with 1 troop, attacks America, of
another owner. -/
theorem simularAtaque_uma_tropa_witness :
    (simularAtaque mapaExemplo (some 1) (some 0) 5 0).1 = mapaExemplo ∧
    (simularAtaque mapaExemplo (some 1) (some 0) 5 0).2 = [Mensagem.tropasInsuficientes] :=
  ⟨(simularAtaque_uma_tropa mapaExemplo 1 0 5 0 (by decide)).1,
   (simularAtaque_uma_tropa mapaExemplo 1 0 5 0 (by decide)).2.1 (by decide)⟩

/-- The search finds a record for the name of any record of the map, and the
record found has that name. -/
theorem buscarTerritorioPorNome_nome (mapa : Mapa) (t : Fin MAX_TERRITORIOS) :
    ∃ j, buscarTerritorioPorNome mapa (mapa t).nome.s = some j ∧
      (mapa j).nome.s = (mapa t).nome.s := by
  unfold buscarTerritorioPorNome
  cases hf : indices.find? (fun i => decide ((mapa i).nome.s = (mapa t).nome.s)) with
  | none =>
    rw [List.find?_eq_none] at hf
    have := hf t (by simp [indices])
    simp at this
  | some j =>
    refine ⟨j, rfl, ?_⟩
    have := List.find?_some hf
    simpa using this

/-- C6. A territory may not attack itself: the battle of a record against
itself, and the request naming one territory as origin and as destination, are
rejected by the same-owner check, whatever the troop count and the dice, and
leave the map as it was. -/
theorem ataque_a_si_mesmo (mapa : Mapa) (t : Fin MAX_TERRITORIOS) (rA rD : Nat) :
    simularAtaque mapa (some t) (some t) rA rD = (mapa, [Mensagem.mesmoDono]) ∧
    faseDeAtaque mapa (some (mapa t).nome) (some (mapa t).nome) rA rD
      = (mapa, [Mensagem.pedeOrigem, Mensagem.pedeDestino, Mensagem.mesmoDono]) := by
  constructor
  · simp [simularAtaque]
  · obtain ⟨j, hj, _⟩ := buscarTerritorioPorNome_nome mapa t
    simp [faseDeAtaque, hj, simularAtaque]

/-- The record at index `i` after a battle, outcome by outcome. -/
theorem simularAtaque_ponto_geral (mapa : Mapa) (a d : Fin MAX_TERRITORIOS) (rA rD : Nat)
    (i : Fin MAX_TERRITORIOS) :
    (simularAtaque mapa (some a) (some d) rA rD).1 i =
      if (mapa a).dono.s = (mapa d).dono.s ∨ (mapa a).tropas < 2 then mapa i
      else if dado rA > dado rD then
        if decrementar (mapa d).tropas ≤ 0 then
          if i = a then { mapa a with tropas := (mapa a).tropas - 1 }
          else if i = d then { mapa d with dono := (mapa a).dono, tropas := 1 }
          else mapa i
        else
          if i = d then { mapa d with tropas := decrementar (mapa d).tropas } else mapa i
      else
        if i = a then { mapa a with tropas := (mapa a).tropas - 1 } else mapa i := by
  by_cases hs : (mapa a).dono.s = (mapa d).dono.s
  · simp [simularAtaque, hs]
  · by_cases ht : (mapa a).tropas < 2
    · simp [simularAtaque, hs, ht]
    · have had : a ≠ d := fun e => hs (by rw [e])
      have hda : d ≠ a := Ne.symm had
      have hda1 : decrementar (mapa a).tropas = (mapa a).tropas - 1 :=
        decrementar_eq _ (by unfold INT_MIN; omega)
      by_cases hr : dado rA > dado rD
      · by_cases hc : decrementar (mapa d).tropas ≤ 0
        · by_cases hia : i = a
          · subst hia
            simp [simularAtaque, hs, ht, hr, hc, hda1, setTropas_mesmo,
              setTropas_outro _ _ _ _ had, setDono_outro _ _ _ _ had]
          · by_cases hid : i = d
            · subst hid
              simp [simularAtaque, hs, ht, hr, hc, hia, setTropas_mesmo,
                setTropas_outro _ _ _ _ hia, setTropas_outro _ _ _ _ had, setDono_mesmo,
                strncpyNome_texto]
            · simp [simularAtaque, hs, ht, hr, hc, hia, hid, setTropas_mesmo,
                setTropas_outro _ _ _ _ hia, setTropas_outro _ _ _ _ hid,
                setDono_outro _ _ _ _ hid]
        · by_cases hid : i = d
          · subst hid
            simp [simularAtaque, hs, ht, hr, hc, setTropas_mesmo]
          · simp [simularAtaque, hs, ht, hr, hc, hid, setTropas_mesmo,
              setTropas_outro _ _ _ _ hid]
      · by_cases hia : i = a
        · subst hia
          simp [simularAtaque, hs, ht, hr, hda1, setTropas_mesmo]
        · simp [simularAtaque, hs, ht, hr, hia, setTropas_outro _ _ _ _ hia]

/-- The record at index `i` after a battle whose defender holds more than
`INT_MIN` troops, so that its decrement does not wrap. -/
theorem simularAtaque_ponto (mapa : Mapa) (a d : Fin MAX_TERRITORIOS) (rA rD : Nat)
    (i : Fin MAX_TERRITORIOS) (hmin : INT_MIN < (mapa d).tropas) :
    (simularAtaque mapa (some a) (some d) rA rD).1 i =
      if (mapa a).dono.s = (mapa d).dono.s ∨ (mapa a).tropas < 2 then mapa i
      else if dado rA > dado rD then
        if (mapa d).tropas ≤ 1 then
          if i = a then { mapa a with tropas := (mapa a).tropas - 1 }
          else if i = d then { mapa d with dono := (mapa a).dono, tropas := 1 }
          else mapa i
        else
          if i = d then { mapa d with tropas := (mapa d).tropas - 1 } else mapa i
      else
        if i = a then { mapa a with tropas := (mapa a).tropas - 1 } else mapa i := by
  rw [simularAtaque_ponto_geral, decrementar_eq _ hmin]
  have hiff : (mapa d).tropas - 1 ≤ 0 ↔ (mapa d).tropas ≤ 1 := by omega
  simp only [hiff]

/-- Where `simularAtaque` does not write: names and colours of all records,
and every field of the records other than the attacker and the defender. -/
theorem simularAtaque_moldura (mapa : Mapa) (atacante defensor : Ponteiro) (rA rD : Nat)
    (i : Fin MAX_TERRITORIOS) :
    ((simularAtaque mapa atacante defensor rA rD).1 i).nome = (mapa i).nome ∧
    ((simularAtaque mapa atacante defensor rA rD).1 i).cor = (mapa i).cor ∧
    (atacante ≠ some i → defensor ≠ some i →
      (simularAtaque mapa atacante defensor rA rD).1 i = mapa i) := by
  cases atacante with
  | none => simp [simularAtaque]
  | some a =>
    cases defensor with
    | none => simp [simularAtaque]
    | some d =>
      rw [simularAtaque_ponto_geral]
      refine ⟨?_, ?_, ?_⟩
      · split_ifs with h1 h2 h3 h4 h5 h6 h7 <;> first | rfl | (rw [h4]) | (rw [h5]) | (rw [h6]) | (rw [h7])
      · split_ifs with h1 h2 h3 h4 h5 h6 h7 <;> first | rfl | (rw [h4]) | (rw [h5]) | (rw [h6]) | (rw [h7])
      · intro hia hid
        have hia2 : ¬ i = a := fun e => hia (by rw [e])
        have hid2 : ¬ i = d := fun e => hid (by rw [e])
        simp [hia2, hid2]

/-- One battle keeps the invariant. -/
theorem simularAtaque_invariante (mapa : Mapa) (atacante defensor : Ponteiro) (rA rD : Nat)
    (h : invariante mapa) : invariante (simularAtaque mapa atacante defensor rA rD).1 := by
  cases atacante with
  | none => simpa [simularAtaque] using h
  | some a =>
    cases defensor with
    | none => simpa [simularAtaque] using h
    | some d =>
      intro i
      have hi := h i
      have ha := h a
      have hd := h d
      have hmin : INT_MIN < (mapa d).tropas := by
        have := hd.1
        unfold INT_MIN
        omega
      rw [simularAtaque_ponto _ _ _ _ _ _ hmin]
      split_ifs with h1 h2 h3 h4 h5 h6 h7
      · exact hi
      · exact ⟨by simp only; push_neg at h1; omega, ha.2⟩
      · exact ⟨by simp only; omega, ha.2⟩
      · exact hi
      · exact ⟨by simp only; omega, hd.2⟩
      · exact hi
      · exact ⟨by simp only; push_neg at h1; omega, ha.2⟩
      · exact hi

/-- One attack request keeps the invariant. -/
theorem faseDeAtaque_invariante (mapa : Mapa) (origem destino : Option (Texto MAX_NOME))
    (rA rD : Nat) (h : invariante mapa) :
    invariante (faseDeAtaque mapa origem destino rA rD).1 := by
  cases origem with
  | none => simpa [faseDeAtaque] using h
  | some o =>
    cases destino with
    | none => simpa [faseDeAtaque] using h
    | some dst =>
      simp only [faseDeAtaque]
      split_ifs
      · exact h
      · exact simularAtaque_invariante mapa _ _ rA rD h

/-- C7. Troop and owner invariant: from a map in which every record has a
troop count of at least 0 and an owner among "Jogador" and "Inimigo", every
finite sequence of attack requests, with any names and any dice, leads to a map
in which every record still has a troop count of at least 0 and an owner among
"Jogador" and "Inimigo". -/
theorem jogar_invariante (mapa : Mapa) (pedidos : List Pedido)
    (h : ∀ i, 0 ≤ (mapa i).tropas ∧
      ((mapa i).dono.s = "Jogador" ∨ (mapa i).dono.s = "Inimigo")) :
    ∀ i, 0 ≤ (jogar mapa pedidos i).tropas ∧
      ((jogar mapa pedidos i).dono.s = "Jogador" ∨
        (jogar mapa pedidos i).dono.s = "Inimigo") := by
  induction pedidos generalizing mapa with
  | nil => exact h
  | cons p ps ih =>
    exact ih _ (faseDeAtaque_invariante mapa p.origem p.destino p.rA p.rD h)

/-- Witness of C7: the invariant holds after the three requests of
`pedidosExemplo` on `mapaExemplo`. -/
theorem jogar_invariante_witness :
    invariante mapaExemplo ∧ invariante (jogar mapaExemplo pedidosExemplo) :=
  ⟨by decide, jogar_invariante mapaExemplo pedidosExemplo (by decide)⟩

/-- C8. Frame of an attack request, accepted or rejected, for any dice: the
name and the colour of every record are the ones before the request, and every
record other than the attacker and the defender found by the search is
unchanged in all its fields. -/
theorem faseDeAtaque_moldura (mapa : Mapa) (origem destino : Option (Texto MAX_NOME))
    (rA rD : Nat) :
    (∀ i, ((faseDeAtaque mapa origem destino rA rD).1 i).nome = (mapa i).nome ∧
      ((faseDeAtaque mapa origem destino rA rD).1 i).cor = (mapa i).cor) ∧
    (∀ i, (∀ o, origem = some o → buscarTerritorioPorNome mapa o.s ≠ some i) →
      (∀ x, destino = some x → buscarTerritorioPorNome mapa x.s ≠ some i) →
      (faseDeAtaque mapa origem destino rA rD).1 i = mapa i) := by
  cases origem with
  | none => simp [faseDeAtaque]
  | some o =>
    cases destino with
    | none => simp [faseDeAtaque]
    | some x =>
      by_cases hn : buscarTerritorioPorNome mapa o.s = none ∨
          buscarTerritorioPorNome mapa x.s = none
      · simp [faseDeAtaque, hn]
      · simp only [faseDeAtaque, hn, if_false]
        constructor
        · intro i
          have h := simularAtaque_moldura mapa (buscarTerritorioPorNome mapa o.s)
            (buscarTerritorioPorNome mapa x.s) rA rD i
          exact ⟨h.1, h.2.1⟩
        · intro i ho hx
          exact (simularAtaque_moldura mapa (buscarTerritorioPorNome mapa o.s)
            (buscarTerritorioPorNome mapa x.s) rA rD i).2.2 (ho o rfl) (hx x rfl)

/-- Witness of C8: when America conquers Oceania, Asia is left as it was. -/
theorem faseDeAtaque_moldura_witness :
    (faseDeAtaque mapaExemplo (some ⟨"America", by decide⟩) (some ⟨"Oceania", by decide⟩)
      5 0).1 3 = mapaExemplo 3 :=
  (faseDeAtaque_moldura mapaExemplo (some ⟨"America", by decide⟩)
    (some ⟨"Oceania", by decide⟩) 5 0).2 3
    (fun o ho => by cases ho; decide) (fun x hx => by cases hx; decide)

/-- The counting loop adds to its counter the number of entries that pass the
test. -/
theorem foldl_contar {α : Type} (p : α → Prop) [DecidablePred p] (l : List α) (c : Int) :
    l.foldl (fun cont i => if p i then cont + 1 else cont) c
      = c + ((l.filter (fun i => decide (p i))).length : Int) := by
  induction l generalizing c with
  | nil => simp
  | cons x xs ih =>
    by_cases hx : p x
    · simp [List.foldl_cons, List.filter_cons, hx, ih]
      omega
    · simp [List.foldl_cons, List.filter_cons, hx, ih]

/-- The number of indices that pass a test is the length of the filtered list
of indices. -/
theorem card_filtro (p : Fin MAX_TERRITORIOS → Prop) [DecidablePred p] :
    (Finset.univ.filter p).card = (indices.filter (fun i => decide (p i))).length := by
  rfl

/-- The counter of mission 0 is the number of territories of "Jogador". -/
theorem contarJogador_numJogador (mapa : Mapa) :
    contarJogador mapa = (numJogador mapa : Int) := by
  unfold contarJogador numJogador
  rw [foldl_contar (fun i => (mapa i).dono.s = "Jogador"), card_filtro]
  simp

theorem boolInt_um (b : Bool) : boolInt b = 1 ↔ b = true := by
  cases b <;> simp [boolInt]

theorem boolInt_zero (b : Bool) : boolInt b = 0 ↔ b = false := by
  cases b <;> simp [boolInt]

/-- C9. Mission 0 (own N territories): `verificarVitoria` returns 1 when the
number of territories of "Jogador" is at least `targetNumber` and 0 when it is
smaller; with `targetNumber = 3` it returns 1 for exactly 3 such territories
and 0 for exactly 2. -/
theorem verificarVitoria_missao0 (mapa : Mapa) (m : Missao) (h0 : m.idMissao = 0) :
    (verificarVitoria (some mapa) (some m) = 1 ↔ (numJogador mapa : Int) ≥ m.targetNumber) ∧
    (verificarVitoria (some mapa) (some m) = 0 ↔ (numJogador mapa : Int) < m.targetNumber) ∧
    (m.targetNumber = 3 → numJogador mapa = 3 → verificarVitoria (some mapa) (some m) = 1) ∧
    (m.targetNumber = 3 → numJogador mapa = 2 → verificarVitoria (some mapa) (some m) = 0) := by
  have hv : verificarVitoria (some mapa) (some m)
      = boolInt (decide ((numJogador mapa : Int) ≥ m.targetNumber)) := by
    simp [verificarVitoria, h0, contarJogador_numJogador]
  rw [hv]
  refine ⟨?_, ?_, ?_, ?_⟩
  · rw [boolInt_um]; simp
  · rw [boolInt_zero]; simp
  · intro h3 hn
    rw [boolInt_um, h3, hn]; decide
  · intro h3 hn
    rw [boolInt_zero, h3, hn]; decide

/-- Witness of C9: with target 3, the mission is fulfilled on `mapaExemplo`
(3 territories of "Jogador") and not on `mapaDoisDoJogador` (2 of them). -/
theorem verificarVitoria_missao0_witness :
    verificarVitoria (some mapaExemplo) (some (missaoNumero 0 3)) = 1 ∧
    verificarVitoria (some mapaDoisDoJogador) (some (missaoNumero 0 3)) = 0 :=
  ⟨(verificarVitoria_missao0 mapaExemplo (missaoNumero 0 3) (by decide)).2.2.1
      (by decide) (by decide),
   (verificarVitoria_missao0 mapaDoisDoJogador (missaoNumero 0 3) (by decide)).2.2.2
      (by decide) (by decide)⟩

/-- C10. Mission 2 (eliminate the enemy): `verificarVitoria` returns 1 when no
territory has owner "Inimigo" and 0 when some territory has, whatever the
target number, colour and territory of the mission (two missions of this kind
get the same answer); it returns 1 when every territory belongs to
"Jogador". -/
theorem verificarVitoria_missao2 (mapa : Mapa) (m : Missao) (h2 : m.idMissao = 2) :
    (verificarVitoria (some mapa) (some m) = 1 ↔ ∀ i, (mapa i).dono.s ≠ "Inimigo") ∧
    (verificarVitoria (some mapa) (some m) = 0 ↔ ∃ i, (mapa i).dono.s = "Inimigo") ∧
    (∀ m2 : Missao, m2.idMissao = 2 →
      verificarVitoria (some mapa) (some m2) = verificarVitoria (some mapa) (some m)) ∧
    ((∀ i, (mapa i).dono.s = "Jogador") → verificarVitoria (some mapa) (some m) = 1) := by
  have hv : ∀ m2 : Missao, m2.idMissao = 2 → verificarVitoria (some mapa) (some m2)
      = match indices.find? (fun i => decide ((mapa i).dono.s = "Inimigo")) with
        | some _ => 0
        | none => 1 := by
    intro m2 hm2
    simp [verificarVitoria, hm2]
  have h1 : verificarVitoria (some mapa) (some m) = 1 ↔ ∀ i, (mapa i).dono.s ≠ "Inimigo" := by
    rw [hv m h2]
    cases hf : indices.find? (fun i => decide ((mapa i).dono.s = "Inimigo")) with
    | none =>
      rw [List.find?_eq_none] at hf
      simp only [true_iff]
      intro i
      have := hf i (by simp [indices])
      simpa using this
    | some j =>
      have := List.find?_some hf
      simp only [decide_eq_true_eq] at this
      simp only [zero_ne_one, false_iff, not_forall, not_not]
      exact ⟨j, this⟩
  have h01 : verificarVitoria (some mapa) (some m) = 0 ∨
      verificarVitoria (some mapa) (some m) = 1 := by
    rw [hv m h2]
    cases indices.find? (fun i => decide ((mapa i).dono.s = "Inimigo")) <;> simp
  refine ⟨h1, ?_, ?_, ?_⟩
  · constructor
    · intro hz
      by_contra hne
      push_neg at hne
      have := h1.2 hne
      omega
    · intro hex
      rcases h01 with h | h
      · exact h
      · obtain ⟨i, hi⟩ := hex
        exact absurd hi (h1.1 h i)
  · intro m2 hm2
    rw [hv m2 hm2, hv m h2]
  · intro hall
    apply h1.2
    intro i
    rw [hall i]
    decide

/-- Witness of C10: the mission is fulfilled on the map whose six territories
belong to "Jogador", here with target number 7. -/
theorem verificarVitoria_missao2_witness :
    verificarVitoria (some mapaTodoDoJogador) (some (missaoNumero 2 7)) = 1 :=
  (verificarVitoria_missao2 mapaTodoDoJogador (missaoNumero 2 7) (by decide)).2.2.2
    (by decide)

/-- A sum over the indices that pass a test is the sum of the filtered list of
indices. -/
theorem soma_filtro (p : Fin MAX_TERRITORIOS → Prop) [DecidablePred p]
    (f : Fin MAX_TERRITORIOS → Int) :
    ∑ i in Finset.univ.filter p, f i
      = ((indices.filter (fun i => decide (p i))).map f).sum := by
  rfl

/-- The 32-bit summing loop, started from the 32-bit value of `c`, ends with
the 32-bit value of `c` plus the values of the entries that pass the test. -/
theorem foldl_somar_wrapInt {α : Type} (p : α → Prop) [DecidablePred p] (f : α → Int)
    (l : List α) (c : Int) :
    l.foldl (fun total i => if p i then wrapInt (total + f i) else total) (wrapInt c)
      = wrapInt (c + ((l.filter (fun i => decide (p i))).map f).sum) := by
  induction l generalizing c with
  | nil => simp
  | cons x xs ih =>
    by_cases hx : p x
    · have hw : wrapInt (wrapInt c + f x) = wrapInt (c + f x) := by
        unfold wrapInt
        omega
      simp only [List.foldl_cons, hx, if_true, hw, ih, List.filter_cons, decide_True,
        List.map_cons, List.sum_cons]
      rw [add_assoc]
    · simp [List.foldl_cons, List.filter_cons, hx, ih]

/-- A 32-bit `int` is its own 32-bit value. -/
theorem wrapInt_eq (x : Int) (h1 : INT_MIN ≤ x) (h2 : x ≤ INT_MAX) : wrapInt x = x := by
  unfold wrapInt
  unfold INT_MIN at h1
  unfold INT_MAX at h2
  omega

/-- The total of mission 1 is the 32-bit value of the sum of the troops of
"Jogador". -/
theorem somarTropasJogador_wrapInt (mapa : Mapa) :
    somarTropasJogador mapa = wrapInt (tropasDoJogador mapa) := by
  unfold somarTropasJogador tropasDoJogador
  have h := foldl_somar_wrapInt (fun i => (mapa i).dono.s = "Jogador")
    (fun i => (mapa i).tropas) indices 0
  have h0 : wrapInt 0 = 0 := by decide
  rw [h0] at h
  rw [h, soma_filtro]
  simp

/-- The total of mission 1 is the sum of the troops of "Jogador" when that sum
is a 32-bit `int`. -/
theorem somarTropasJogador_tropasDoJogador (mapa : Mapa)
    (h1 : INT_MIN ≤ tropasDoJogador mapa) (h2 : tropasDoJogador mapa ≤ INT_MAX) :
    somarTropasJogador mapa = tropasDoJogador mapa := by
  rw [somarTropasJogador_wrapInt, wrapInt_eq _ h1 h2]

/-- The counter of mission 4 is the number of territories of "Jogador" of the
colour. -/
theorem contarJogadorDaCor_numJogadorDaCor (mapa : Mapa) (cor : String) :
    contarJogadorDaCor mapa cor = (numJogadorDaCor mapa cor : Int) := by
  unfold contarJogadorDaCor numJogadorDaCor
  rw [foldl_contar (fun i => (mapa i).dono.s = "Jogador" ∧ (mapa i).cor.s = cor), card_filtro]
  simp

/-- C11, as stated, fails when the sum overflows: with America at `INT_MAX`
troops, the territories of "Jogador" hold `INT_MAX + 4` troops, which is at
least 12, but the 32-bit total wraps around to a negative value and
`verificarVitoria` returns 0 for the mission of 12 troops. -/
theorem verificarVitoria_missao1_estouro :
    tropasDoJogador (setTropas mapaExemplo 0 INT_MAX) = INT_MAX + 4 ∧
    tropasDoJogador (setTropas mapaExemplo 0 INT_MAX) ≥ (missaoNumero 1 12).targetNumber ∧
    verificarVitoria (some (setTropas mapaExemplo 0 INT_MAX)) (some (missaoNumero 1 12)) = 0 := by
  decide

/-- C11, amended. Mission 1 (own N troops in total), on a map where the sum of
the troops of the territories whose owner is "Jogador" is a 32-bit `int`
(between `INT_MIN` and `INT_MAX`): `verificarVitoria` returns 1 when that sum
is at least `targetNumber` and 0 when it is smaller; the troops of the other
territories are not counted. -/
theorem verificarVitoria_missao1 (mapa : Mapa) (m : Missao) (h1 : m.idMissao = 1)
    (hmin : INT_MIN ≤ tropasDoJogador mapa) (hmax : tropasDoJogador mapa ≤ INT_MAX) :
    (verificarVitoria (some mapa) (some m) = 1 ↔ tropasDoJogador mapa ≥ m.targetNumber) ∧
    (verificarVitoria (some mapa) (some m) = 0 ↔ tropasDoJogador mapa < m.targetNumber) := by
  have hv : verificarVitoria (some mapa) (some m)
      = boolInt (decide (tropasDoJogador mapa ≥ m.targetNumber)) := by
    simp [verificarVitoria, h1, somarTropasJogador_tropasDoJogador mapa hmin hmax]
  rw [hv]
  constructor
  · rw [boolInt_um]; simp
  · rw [boolInt_zero]; simp

/-- Witness of C11, amended: on `mapaExemplo` the territories of "Jogador" hold
2 + 1 + 3 = 6 troops and the others 6 more; the mission is fulfilled with
target 6 and not with target 7. -/
theorem verificarVitoria_missao1_witness :
    verificarVitoria (some mapaExemplo) (some (missaoNumero 1 6)) = 1 ∧
    verificarVitoria (some mapaExemplo) (some (missaoNumero 1 7)) = 0 :=
  ⟨(verificarVitoria_missao1 mapaExemplo (missaoNumero 1 6) (by decide) (by decide)
      (by decide)).1.2 (by decide),
   (verificarVitoria_missao1 mapaExemplo (missaoNumero 1 7) (by decide) (by decide)
      (by decide)).2.2 (by decide)⟩

/-- C12. Mission 3 (own a given territory), on a map whose names are pairwise
distinct: `verificarVitoria` returns 1 when some territory has the name
`targetTerritorio` and the owner "Jogador", and 0 otherwise; it returns 0 when
no territory has that name. -/
theorem verificarVitoria_missao3 (mapa : Mapa) (m : Missao) (h3 : m.idMissao = 3)
    (hd : nomesDistintos mapa) :
    (verificarVitoria (some mapa) (some m) = 1 ↔
      ∃ i, (mapa i).nome.s = m.targetTerritorio.s ∧ (mapa i).dono.s = "Jogador") ∧
    (verificarVitoria (some mapa) (some m) = 0 ↔
      ¬ ∃ i, (mapa i).nome.s = m.targetTerritorio.s ∧ (mapa i).dono.s = "Jogador") ∧
    ((∀ i, (mapa i).nome.s ≠ m.targetTerritorio.s) →
      verificarVitoria (some mapa) (some m) = 0) := by
  have hv : verificarVitoria (some mapa) (some m)
      = match indices.find? (fun i => decide ((mapa i).nome.s = m.targetTerritorio.s)) with
        | some i => boolInt (decide ((mapa i).dono.s = "Jogador"))
        | none => 0 := by
    simp [verificarVitoria, h3]
  rw [hv]
  cases hf : indices.find? (fun i => decide ((mapa i).nome.s = m.targetTerritorio.s)) with
  | none =>
    rw [List.find?_eq_none] at hf
    have hno : ∀ i, (mapa i).nome.s ≠ m.targetTerritorio.s := by
      intro i
      have := hf i (by simp [indices])
      simpa using this
    refine ⟨?_, ?_, ?_⟩
    · constructor
      · intro h; simp at h
      · rintro ⟨i, hi, _⟩
        exact absurd hi (hno i)
    · simp only [true_iff]
      rintro ⟨i, hi, _⟩
      exact hno i hi
    · intro _; rfl
  | some j =>
    have hj : (mapa j).nome.s = m.targetTerritorio.s := by
      have := List.find?_some hf
      simpa using this
    have hex : (∃ i, (mapa i).nome.s = m.targetTerritorio.s ∧ (mapa i).dono.s = "Jogador")
        ↔ (mapa j).dono.s = "Jogador" := by
      constructor
      · rintro ⟨i, hi, hdono⟩
        have hij : i = j := hd i j (by rw [hi, hj])
        rw [← hij]
        exact hdono
      · intro hdono
        exact ⟨j, hj, hdono⟩
    refine ⟨?_, ?_, ?_⟩
    · simp only [boolInt_um, decide_eq_true_eq]
      exact hex.symm
    · simp only [boolInt_zero, decide_eq_false_iff_not]
      rw [hex]
    · intro hno
      exact absurd hj (hno j)

/-- Witness of C12: on `mapaExemplo`, Africa belongs to "Jogador" and the
mission naming it is fulfilled. -/
theorem verificarVitoria_missao3_witness :
    verificarVitoria (some mapaExemplo)
      (some { missaoNumero 3 0 with targetTerritorio := ⟨"Africa", by decide⟩ }) = 1 :=
  (verificarVitoria_missao3 mapaExemplo
    { missaoNumero 3 0 with targetTerritorio := ⟨"Africa", by decide⟩ }
    (by decide) (by decide)).1.2 ⟨4, by decide, by decide⟩

/-- C13. Mission 4 (own N territories of a colour): `verificarVitoria`
returns 1 when the number of territories whose owner is "Jogador" and whose
colour is `targetColor` is at least `targetNumber`, and 0 when it is smaller;
territories of that colour of another owner, and territories of "Jogador" of
another colour, are not counted. -/
theorem verificarVitoria_missao4 (mapa : Mapa) (m : Missao) (h4 : m.idMissao = 4) :
    (verificarVitoria (some mapa) (some m) = 1 ↔
      (numJogadorDaCor mapa m.targetColor.s : Int) ≥ m.targetNumber) ∧
    (verificarVitoria (some mapa) (some m) = 0 ↔
      (numJogadorDaCor mapa m.targetColor.s : Int) < m.targetNumber) := by
  have hv : verificarVitoria (some mapa) (some m)
      = boolInt (decide ((numJogadorDaCor mapa m.targetColor.s : Int) ≥ m.targetNumber)) := by
    simp [verificarVitoria, h4, contarJogadorDaCor_numJogadorDaCor]
  rw [hv]
  constructor
  · rw [boolInt_um]; simp
  · rw [boolInt_zero]; simp

/-- Witness of C13: on `mapaExemplo` two territories of "Jogador" are "Azul";
the mission asking for 2 of them is fulfilled, and the one asking for 2 "Verde"
is not, both "Verde" territories being of "Inimigo". -/
theorem verificarVitoria_missao4_witness :
    verificarVitoria (some mapaExemplo)
      (some { missaoNumero 4 2 with targetColor := ⟨"Azul", by decide⟩ }) = 1 ∧
    verificarVitoria (some mapaExemplo)
      (some { missaoNumero 4 2 with targetColor := ⟨"Verde", by decide⟩ }) = 0 :=
  ⟨(verificarVitoria_missao4 mapaExemplo
      { missaoNumero 4 2 with targetColor := ⟨"Azul", by decide⟩ } (by decide)).1.2
      (by decide),
   (verificarVitoria_missao4 mapaExemplo
      { missaoNumero 4 2 with targetColor := ⟨"Verde", by decide⟩ } (by decide)).2.2
      (by decide)⟩

theorem boolInt_zero_ou_um (b : Bool) : boolInt b = 0 ∨ boolInt b = 1 := by
  cases b <;> simp [boolInt]

/-- C17. Unrecognised mission kind: when `idMissao` is outside 0..4,
`verificarVitoria` returns 0 on every map; and for every discriminant, the
five kinds included, the value returned is 0 or 1. -/
theorem verificarVitoria_missao_desconhecida (mapa : Mapa) (m : Missao) :
    ((m.idMissao < 0 ∨ 4 < m.idMissao) → verificarVitoria (some mapa) (some m) = 0) ∧
    (verificarVitoria (some mapa) (some m) = 0 ∨
      verificarVitoria (some mapa) (some m) = 1) := by
  constructor
  · intro h
    have h0 : m.idMissao ≠ 0 := by omega
    have h1 : m.idMissao ≠ 1 := by omega
    have h2 : m.idMissao ≠ 2 := by omega
    have h3 : m.idMissao ≠ 3 := by omega
    have h4 : m.idMissao ≠ 4 := by omega
    simp [verificarVitoria, h0, h1, h2, h3, h4]
  · simp only [verificarVitoria]
    split_ifs
    · exact boolInt_zero_ou_um _
    · exact boolInt_zero_ou_um _
    · cases indices.find? (fun i => decide ((mapa i).dono.s = "Inimigo")) <;> simp
    · cases indices.find? (fun i => decide ((mapa i).nome.s = m.targetTerritorio.s)) with
      | none => simp
      | some j => exact boolInt_zero_ou_um _
    · exact boolInt_zero_ou_um _
    · simp

/-- Witness of C17: discriminant 7 is not fulfilled even on the map whose six
territories belong to "Jogador". -/
theorem verificarVitoria_missao_desconhecida_witness :
    verificarVitoria (some mapaTodoDoJogador) (some (missaoNumero 7 0)) = 0 :=
  (verificarVitoria_missao_desconhecida mapaTodoDoJogador (missaoNumero 7 0)).1
    (Or.inr (by decide))

/-- The bounded copy keeps a text that fits the buffer. -/
theorem strncpyNome_curto (s : String) (h : s.length < MAX_NOME) : (strncpyNome s).s = s :=
  congrArg Texto.s (strncpyNome_texto ⟨s, h⟩)

/-- The discriminant drawn by `sortearMissao` is `rand() % 5`. -/
theorem sortearMissao_idMissao (r0 r1 r2 : Nat) :
    (sortearMissao r0 r1 r2).idMissao = ((r0 % 5 : Nat) : Int) := by
  simp only [sortearMissao]
  split_ifs <;> rfl

/-- C14. Numeric parameters of the mission drawn, for all values of the
random draws: the kind is one of 0..4, the target number is 3 for kind 0, 12
for kind 1, and 2 or 3 for kind 4. -/
theorem sortearMissao_numeros (r0 r1 r2 : Nat) :
    (0 ≤ (sortearMissao r0 r1 r2).idMissao ∧ (sortearMissao r0 r1 r2).idMissao ≤ 4) ∧
    ((sortearMissao r0 r1 r2).idMissao = 0 → (sortearMissao r0 r1 r2).targetNumber = 3) ∧
    ((sortearMissao r0 r1 r2).idMissao = 1 → (sortearMissao r0 r1 r2).targetNumber = 12) ∧
    ((sortearMissao r0 r1 r2).idMissao = 4 →
      (sortearMissao r0 r1 r2).targetNumber = 2 ∨
      (sortearMissao r0 r1 r2).targetNumber = 3) := by
  refine ⟨?_, ?_, ?_, ?_⟩
  · rw [sortearMissao_idMissao]
    omega
  · rw [sortearMissao_idMissao]
    intro h
    simp only [sortearMissao]
    split_ifs
    rfl
  · rw [sortearMissao_idMissao]
    intro h
    simp only [sortearMissao]
    split_ifs <;> first | rfl | omega
  · rw [sortearMissao_idMissao]
    intro h
    simp only [sortearMissao]
    split_ifs <;> first | omega | (simp only; omega)

/-- Witness of C14: the draws 9, 3 and 5 give kind 4 with target number 3. -/
theorem sortearMissao_numeros_witness :
    (sortearMissao 9 3 5).idMissao = 4 ∧
    ((sortearMissao 9 3 5).targetNumber = 2 ∨ (sortearMissao 9 3 5).targetNumber = 3) :=
  ⟨by decide, (sortearMissao_numeros 9 3 5).2.2.2 (by decide)⟩

/-- C15. Named parameters of the mission drawn, for all values of the random
draws: `targetTerritorio` is one of the six names of `NOMES_TERRITORIOS` for
kind 3 and empty for every other kind; `targetColor` is one of the six colours
of `CORES_POSSIVEIS` for kind 4 and empty for every other kind. -/
theorem sortearMissao_textos (r0 r1 r2 : Nat) :
    ((sortearMissao r0 r1 r2).idMissao = 3 →
      ∃ i, (sortearMissao r0 r1 r2).targetTerritorio.s = NOMES_TERRITORIOS i) ∧
    ((sortearMissao r0 r1 r2).idMissao ≠ 3 →
      (sortearMissao r0 r1 r2).targetTerritorio.s = "") ∧
    ((sortearMissao r0 r1 r2).idMissao = 4 →
      ∃ c, (sortearMissao r0 r1 r2).targetColor.s = CORES_POSSIVEIS c) ∧
    ((sortearMissao r0 r1 r2).idMissao ≠ 4 →
      (sortearMissao r0 r1 r2).targetColor.s = "") := by
  have hn : ∀ i, (NOMES_TERRITORIOS i).length < MAX_NOME := by decide
  have hc : ∀ c, (CORES_POSSIVEIS c).length < MAX_NOME := by decide
  refine ⟨?_, ?_, ?_, ?_⟩
  · rw [sortearMissao_idMissao]
    intro h
    refine ⟨indiceSorteado MAX_TERRITORIOS (by decide) r1, ?_⟩
    simp only [sortearMissao]
    split_ifs <;> first | omega | exact strncpyNome_curto _ (hn _)
  · rw [sortearMissao_idMissao]
    intro h
    simp only [sortearMissao]
    split_ifs <;> rfl
  · rw [sortearMissao_idMissao]
    intro h
    refine ⟨indiceSorteado NUM_CORES (by decide) r1, ?_⟩
    simp only [sortearMissao]
    split_ifs <;> first | omega | exact strncpyNome_curto _ (hc _)
  · rw [sortearMissao_idMissao]
    intro h
    simp only [sortearMissao]
    split_ifs <;> rfl

/-- Witness of C15: the draws 8 and 7 give kind 3 with a target among the six
names and no target colour. -/
theorem sortearMissao_textos_witness :
    (∃ i, (sortearMissao 8 7 0).targetTerritorio.s = NOMES_TERRITORIOS i) ∧
    (sortearMissao 8 7 0).targetColor.s = "" :=
  ⟨(sortearMissao_textos 8 7 0).1 (by decide), (sortearMissao_textos 8 7 0).2.2.2 (by decide)⟩

/-- One iteration of the setup loop writes only the record of its index. -/
theorem inicializarPasso_outro (rand : Nat → Nat) (st : EstadoInicial)
    (i j : Fin MAX_TERRITORIOS) (h : j ≠ i) :
    (inicializarPasso rand st i).mapa j = st.mapa j := by
  simp only [inicializarPasso]
  split_ifs <;> simp [setCor, setTropas, setDono, setNome, Function.update, h]

/-- One iteration of the setup loop gives its record between 1 and 8 troops,
and counts the record when it gives it to "Jogador". -/
theorem inicializarPasso_mesmo (rand : Nat → Nat) (st : EstadoInicial)
    (i : Fin MAX_TERRITORIOS) :
    (1 ≤ ((inicializarPasso rand st i).mapa i).tropas ∧
      ((inicializarPasso rand st i).mapa i).tropas ≤ 8) ∧
    ((inicializarPasso rand st i).contadorJogador = st.contadorJogador ∨
      ((inicializarPasso rand st i).contadorJogador = st.contadorJogador + 1 ∧
        ((inicializarPasso rand st i).mapa i).dono.s = "Jogador")) := by
  simp only [inicializarPasso]
  split_ifs
  · simp [setCor, setTropas, setDono, setNome, Function.update]
    omega
  · simp [setCor, setTropas, setDono, setNome, Function.update]
    omega

/-- The setup loop over a list of indices leaves the other records as they
were. -/
theorem inicializar_laco_outro (rand : Nat → Nat) (l : List (Fin MAX_TERRITORIOS))
    (st : EstadoInicial) (j : Fin MAX_TERRITORIOS) (h : j ∉ l) :
    (l.foldl (inicializarPasso rand) st).mapa j = st.mapa j := by
  induction l generalizing st with
  | nil => rfl
  | cons x xs ih =>
    rw [List.foldl_cons, ih _ (fun hx => h (List.mem_cons_of_mem _ hx))]
    exact inicializarPasso_outro rand st x j (fun e => h (by rw [e]; exact List.mem_cons_self _ _))

/-- After the setup loop over distinct indices, each of them has between 1
and 8 troops. -/
theorem inicializar_laco_tropas (rand : Nat → Nat) (l : List (Fin MAX_TERRITORIOS))
    (st : EstadoInicial) (hnd : l.Nodup) (i : Fin MAX_TERRITORIOS) (hi : i ∈ l) :
    1 ≤ ((l.foldl (inicializarPasso rand) st).mapa i).tropas ∧
    ((l.foldl (inicializarPasso rand) st).mapa i).tropas ≤ 8 := by
  induction l generalizing st with
  | nil => exact absurd hi (List.not_mem_nil _)
  | cons x xs ih =>
    rw [List.nodup_cons] at hnd
    rw [List.foldl_cons]
    rcases List.mem_cons.1 hi with e | hxs
    · subst e
      rw [inicializar_laco_outro rand xs _ i hnd.1]
      exact (inicializarPasso_mesmo rand st i).1
    · exact ih _ hnd.2 hxs

/-- The counter of the setup loop never decreases, and when it has increased
some index visited belongs to "Jogador". -/
theorem inicializar_laco_contador (rand : Nat → Nat) (l : List (Fin MAX_TERRITORIOS))
    (st : EstadoInicial) (hnd : l.Nodup) :
    st.contadorJogador ≤ (l.foldl (inicializarPasso rand) st).contadorJogador ∧
    (st.contadorJogador < (l.foldl (inicializarPasso rand) st).contadorJogador →
      ∃ i, i ∈ l ∧ ((l.foldl (inicializarPasso rand) st).mapa i).dono.s = "Jogador") := by
  induction l generalizing st with
  | nil => exact ⟨le_refl _, fun h => absurd h (lt_irrefl _)⟩
  | cons x xs ih =>
    rw [List.nodup_cons] at hnd
    rw [List.foldl_cons]
    have hx := (inicializarPasso_mesmo rand st x).2
    have hrec := ih (inicializarPasso rand st x) hnd.2
    constructor
    · rcases hx with hx | ⟨hx, _⟩ <;> omega
    · intro hlt
      by_cases hm : (inicializarPasso rand st x).contadorJogador
          < (xs.foldl (inicializarPasso rand) (inicializarPasso rand st x)).contadorJogador
      · obtain ⟨i, hi, hd⟩ := hrec.2 hm
        exact ⟨i, List.mem_cons_of_mem _ hi, hd⟩
      · rcases hx with hx | ⟨_, hj⟩
        · omega
        · refine ⟨x, List.mem_cons_self _ _, ?_⟩
          rw [inicializar_laco_outro rand xs _ x hnd.1]
          exact hj

theorem indices_nodup : indices.Nodup := List.nodup_finRange _

theorem mem_indices (i : Fin MAX_TERRITORIOS) : i ∈ indices := List.mem_finRange i

/-- Every record of the map set up has between 1 and 8 troops. -/
theorem inicializarTerritorios_tropas (mapa : Mapa) (rand : Nat → Nat)
    (i : Fin MAX_TERRITORIOS) :
    1 ≤ (inicializarTerritorios mapa rand i).tropas ∧
    (inicializarTerritorios mapa rand i).tropas ≤ 8 := by
  have h := inicializar_laco_tropas rand indices ⟨mapa, 0, 0⟩ indices_nodup i (mem_indices i)
  simp only [inicializarTerritorios]
  split_ifs
  · by_cases hi : i = 0
    · subst hi
      rw [setDono_mesmo]
      exact h
    · rw [setDono_outro _ _ _ _ hi]
      exact h
  · exact h

/-- C16. Setup postcondition, for all values of the random draws: the map
produced by `inicializarTerritorios` has a territory owned by "Jogador" (the
first one is given to it when the draws gave it none), and every territory has
between 1 and 8 troops. -/
theorem inicializarTerritorios_pos (mapa : Mapa) (rand : Nat → Nat) :
    (∃ i, (inicializarTerritorios mapa rand i).dono.s = "Jogador") ∧
    (∀ i, 1 ≤ (inicializarTerritorios mapa rand i).tropas ∧
      (inicializarTerritorios mapa rand i).tropas ≤ 8) ∧
    ((∀ i, ((indices.foldl (inicializarPasso rand) ⟨mapa, 0, 0⟩).mapa i).dono.s ≠ "Jogador") →
      (inicializarTerritorios mapa rand 0).dono.s = "Jogador") := by
  have hc := inicializar_laco_contador rand indices ⟨mapa, 0, 0⟩ indices_nodup
  refine ⟨?_, inicializarTerritorios_tropas mapa rand, ?_⟩
  · simp only [inicializarTerritorios]
    split_ifs with h0
    · exact ⟨0, by rw [setDono_mesmo]⟩
    · have hlt : (0 : Int) < (indices.foldl (inicializarPasso rand) ⟨mapa, 0, 0⟩).contadorJogador := by
        have := hc.1
        simp only at this
        omega
      obtain ⟨i, _, hd⟩ := hc.2 hlt
      exact ⟨i, hd⟩
  · intro hnone
    simp only [inicializarTerritorios]
    split_ifs with h0
    · rw [setDono_mesmo]
    · have hlt : (0 : Int) < (indices.foldl (inicializarPasso rand) ⟨mapa, 0, 0⟩).contadorJogador := by
        have := hc.1
        simp only at this
        omega
      obtain ⟨i, _, hd⟩ := hc.2 hlt
      exact absurd hd (hnone i)

/-- Witness of C16: when every draw is 77 no territory is drawn for "Jogador"
and the first one is given to it. -/
theorem inicializarTerritorios_pos_witness :
    (inicializarTerritorios mapaExemplo (fun _ => 77) 0).dono.s = "Jogador" :=
  (inicializarTerritorios_pos mapaExemplo (fun _ => 77)).2.2 (by decide)

/-- A battle that passes the checks takes exactly one troop from one record
of a map in which every record has at least 1 troop. -/
theorem simularAtaque_uma_baixa (mapa : Mapa) (a d : Fin MAX_TERRITORIOS) (rA rD : Nat)
    (h1 : ∀ i, 1 ≤ (mapa i).tropas) (hv : passaValidacao mapa (some a) (some d)) :
    ∃ x, ∀ i, ((simularAtaque mapa (some a) (some d) rA rD).1 i).tropas
      = (mapa i).tropas + (if i = x then -1 else 0) := by
  obtain ⟨hs, ht⟩ := hv
  have had : a ≠ d := fun e => hs (by rw [e])
  have hrej : ¬ ((mapa a).dono.s = (mapa d).dono.s ∨ (mapa a).tropas < 2) := by
    rintro (h | h)
    · exact hs h
    · omega
  have hmin : INT_MIN < (mapa d).tropas := by
    have := h1 d
    unfold INT_MIN
    omega
  by_cases hr : dado rA > dado rD
  · by_cases hc : (mapa d).tropas ≤ 1
    · refine ⟨a, fun i => ?_⟩
      have hd1 := h1 d
      rw [simularAtaque_ponto _ _ _ _ _ _ hmin]
      simp only [hrej, hr, hc, if_true, if_false]
      by_cases hia : i = a
      · subst hia
        simp
        omega
      · by_cases hid : i = d
        · subst hid
          simp [hia]
          omega
        · simp [hia, hid]
    · refine ⟨d, fun i => ?_⟩
      rw [simularAtaque_ponto _ _ _ _ _ _ hmin]
      simp only [hrej, hr, hc, if_true, if_false]
      by_cases hid : i = d
      · subst hid
        simp
        omega
      · simp [hid]
  · refine ⟨a, fun i => ?_⟩
    rw [simularAtaque_ponto _ _ _ _ _ _ hmin]
    simp only [hrej, hr, if_true, if_false]
    by_cases hia : i = a
    · subst hia
      simp
      omega
    · simp [hia]

/-- A battle that does not pass the checks returns the map it was given. -/
theorem simularAtaque_nao_passa (mapa : Mapa) (atacante defensor : Ponteiro) (rA rD : Nat)
    (h : ¬ passaValidacao mapa atacante defensor) :
    (simularAtaque mapa atacante defensor rA rD).1 = mapa := by
  apply simularAtaque_rejeitado
  cases atacante with
  | none => exact Or.inl rfl
  | some a =>
    cases defensor with
    | none => exact Or.inr (Or.inl rfl)
    | some d =>
      refine Or.inr (Or.inr ⟨a, d, rfl, rfl, ?_⟩)
      by_cases hs : (mapa a).dono.s = (mapa d).dono.s
      · exact Or.inl ((Texto.eq_iff _ _).2 hs)
      · right
        by_contra ht
        exact h ⟨hs, by omega⟩

/-- The map after a request that is not accepted is the map before it. -/
theorem faseDeAtaque_nao_aceito (mapa : Mapa) (p : Pedido) (h : ¬ aceito mapa p) :
    (faseDeAtaque mapa p.origem p.destino p.rA p.rD).1 = mapa := by
  unfold aceito at h
  cases ho : p.origem with
  | none => simp [faseDeAtaque]
  | some o =>
    cases hd : p.destino with
    | none => simp [faseDeAtaque]
    | some d =>
      rw [ho, hd] at h
      simp only [faseDeAtaque]
      split_ifs
      · rfl
      · exact simularAtaque_nao_passa mapa _ _ p.rA p.rD h

/-- An accepted request takes exactly one troop from one record of a map in
which every record has at least 1 troop. -/
theorem faseDeAtaque_uma_baixa (mapa : Mapa) (p : Pedido)
    (h1 : ∀ i, 1 ≤ (mapa i).tropas) (h : aceito mapa p) :
    ∃ x, (2 ≤ (mapa x).tropas) ∧
      ∀ i, ((faseDeAtaque mapa p.origem p.destino p.rA p.rD).1 i).tropas
        = (mapa i).tropas + (if i = x then -1 else 0) := by
  unfold aceito at h
  cases ho : p.origem with
  | none => rw [ho] at h; exact absurd h (by simp)
  | some o =>
    cases hd : p.destino with
    | none => rw [ho, hd] at h; exact absurd h (by simp)
    | some d =>
      rw [ho, hd] at h
      simp only at h
      cases ha : buscarTerritorioPorNome mapa o.s with
      | none => rw [ha] at h; exact absurd h (by simp [passaValidacao])
      | some a =>
        cases hb : buscarTerritorioPorNome mapa d.s with
        | none => rw [ha, hb] at h; exact absurd h (by simp [passaValidacao])
        | some b =>
          rw [ha, hb] at h
          obtain ⟨x, hx⟩ := simularAtaque_uma_baixa mapa a b p.rA p.rD h1 h
          have hfase : (faseDeAtaque mapa (some o) (some d) p.rA p.rD).1
              = (simularAtaque mapa (some a) (some b) p.rA p.rD).1 := by
            simp [faseDeAtaque, ha, hb]
          refine ⟨x, ?_, ?_⟩
          · by_contra hlt
            have hx1 := hx x
            have hmin : 1 ≤ ((simularAtaque mapa (some a) (some b) p.rA p.rD).1 x).tropas := by
              have hxa := h1 x
              have haa := h.2
              have hda := h1 b
              have hinv := simularAtaque_ponto mapa a b p.rA p.rD x
                (by unfold INT_MIN; omega)
              rw [hinv]
              split_ifs <;> first | exact hxa | (simp only; omega)
            rw [hx1] at hmin
            simp at hmin
            have := h1 x
            omega
          · intro i
            rw [hfase]
            exact hx i

/-- The checks of `simularAtaque` pass exactly when the battle is fought, that
is, when its header is printed. -/
theorem passaValidacao_sse_batalha (mapa : Mapa) (atacante defensor : Ponteiro)
    (rA rD : Nat) :
    passaValidacao mapa atacante defensor ↔
      Mensagem.batalha ∈ (simularAtaque mapa atacante defensor rA rD).2 := by
  cases atacante with
  | none => simp [passaValidacao, simularAtaque]
  | some a =>
    cases defensor with
    | none => simp [passaValidacao, simularAtaque]
    | some d =>
      simp only [passaValidacao, simularAtaque]
      split_ifs with h1 h2 h3 h4 <;> simp [h1] <;> omega

/-- A request is accepted exactly when `faseDeAtaque` reaches the battle, that
is, when the header of the battle is among the lines printed. -/
theorem aceito_sse_batalha (mapa : Mapa) (p : Pedido) :
    aceito mapa p ↔
      Mensagem.batalha ∈ (faseDeAtaque mapa p.origem p.destino p.rA p.rD).2 := by
  unfold aceito
  cases p.origem with
  | none => simp [faseDeAtaque]
  | some o =>
    cases p.destino with
    | none => simp [faseDeAtaque]
    | some d =>
      simp only [faseDeAtaque]
      split_ifs with hn
      · rcases hn with hn | hn
        · simp [hn, passaValidacao]
        · cases buscarTerritorioPorNome mapa o.s <;> simp [hn, passaValidacao]
      · rw [passaValidacao_sse_batalha mapa _ _ p.rA p.rD]
        simp

/-- Taking one troop from one record takes one from the total. -/
theorem totalTropas_uma_baixa (mapa novo : Mapa) (x : Fin MAX_TERRITORIOS)
    (h : ∀ i, (novo i).tropas = (mapa i).tropas + (if i = x then -1 else 0)) :
    totalTropas novo = totalTropas mapa - 1 := by
  unfold totalTropas
  simp_rw [h]
  rw [Finset.sum_add_distrib, Finset.sum_ite_eq']
  simp
  omega

/-- A map in which every record has at least 1 troop has at least
`MAX_TERRITORIOS` troops in total. -/
theorem totalTropas_minimo (mapa : Mapa) (h1 : ∀ i, 1 ≤ (mapa i).tropas) :
    (MAX_TERRITORIOS : Int) ≤ totalTropas mapa := by
  unfold totalTropas
  have h := Finset.sum_le_sum (fun i (_ : i ∈ (Finset.univ : Finset (Fin MAX_TERRITORIOS))) => h1 i)
  simpa using h

/-- One request keeps every record at 1 troop or more. -/
theorem faseDeAtaque_minimo (mapa : Mapa) (p : Pedido) (h1 : ∀ i, 1 ≤ (mapa i).tropas) :
    ∀ i, 1 ≤ ((faseDeAtaque mapa p.origem p.destino p.rA p.rD).1 i).tropas := by
  intro i
  by_cases h : aceito mapa p
  · obtain ⟨x, hx2, hx⟩ := faseDeAtaque_uma_baixa mapa p h1 h
    rw [hx i]
    have := h1 i
    by_cases hix : i = x
    · subst hix
      simp
      omega
    · simp [hix]
      exact this
  · rw [faseDeAtaque_nao_aceito mapa p h]
    exact h1 i

/-- C18. Troop conservation on a map in which every territory has at least 1
troop: an accepted attack request lowers the sum of the troops of all the
territories by exactly 1, whatever the dice and with or without conquest; a
request that is not accepted leaves the sum as it was. -/
theorem faseDeAtaque_conserva (mapa : Mapa) (p : Pedido)
    (h1 : ∀ i, 1 ≤ (mapa i).tropas) :
    (aceito mapa p →
      totalTropas (faseDeAtaque mapa p.origem p.destino p.rA p.rD).1 = totalTropas mapa - 1) ∧
    (¬ aceito mapa p →
      totalTropas (faseDeAtaque mapa p.origem p.destino p.rA p.rD).1 = totalTropas mapa) := by
  constructor
  · intro h
    obtain ⟨x, _, hx⟩ := faseDeAtaque_uma_baixa mapa p h1 h
    exact totalTropas_uma_baixa mapa _ x hx
  · intro h
    rw [faseDeAtaque_nao_aceito mapa p h]

/-- Witness of C18 on `mapaPovoado`: the attack of America on Oceania is
accepted and takes one troop from the total; the attack of America on Europa,
of the same owner, is not accepted and leaves the total as it was. -/
theorem faseDeAtaque_conserva_witness :
    totalTropas (faseDeAtaque mapaPovoado (some ⟨"America", by decide⟩)
      (some ⟨"Oceania", by decide⟩) 5 0).1 = totalTropas mapaPovoado - 1 ∧
    totalTropas (faseDeAtaque mapaPovoado (some ⟨"America", by decide⟩)
      (some ⟨"Europa", by decide⟩) 5 0).1 = totalTropas mapaPovoado :=
  ⟨(faseDeAtaque_conserva mapaPovoado
      (pedido "America" "Oceania" 5 0 (by decide) (by decide)) (by decide)).1 (by decide),
   (faseDeAtaque_conserva mapaPovoado
      (pedido "America" "Europa" 5 0 (by decide) (by decide)) (by decide)).2 (by decide)⟩

/-- After a sequence of requests on a map in which every record has at least
1 troop, every record still has at least 1 troop and the total has gone down
by the number of accepted requests. -/
theorem jogar_total (mapa : Mapa) (pedidos : List Pedido) (h1 : ∀ i, 1 ≤ (mapa i).tropas) :
    (∀ i, 1 ≤ (jogar mapa pedidos i).tropas) ∧
    totalTropas (jogar mapa pedidos) = totalTropas mapa - (numAceitos mapa pedidos : Int) := by
  induction pedidos generalizing mapa with
  | nil => exact ⟨h1, by simp [jogar, numAceitos]⟩
  | cons p ps ih =>
    have hmin := faseDeAtaque_minimo mapa p h1
    obtain ⟨ih1, ih2⟩ := ih _ hmin
    refine ⟨ih1, ?_⟩
    simp only [jogar, numAceitos]
    rw [ih2]
    by_cases h : aceito mapa p
    · obtain ⟨x, _, hx⟩ := faseDeAtaque_uma_baixa mapa p h1 h
      rw [totalTropas_uma_baixa mapa _ x hx]
      simp [h]
      omega
    · rw [faseDeAtaque_nao_aceito mapa p h]
      simp [h]

/-- The number of accepted requests of a sequence is at most the total of the
troops less `MAX_TERRITORIOS`, on a map in which every record has at least 1
troop. -/
theorem numAceitos_limite (mapa : Mapa) (pedidos : List Pedido)
    (h1 : ∀ i, 1 ≤ (mapa i).tropas) :
    (numAceitos mapa pedidos : Int) ≤ totalTropas mapa - 6 := by
  obtain ⟨hmin, htot⟩ := jogar_total mapa pedidos h1
  have h6 := totalTropas_minimo (jogar mapa pedidos) hmin
  simp only [Nat.cast_ofNat] at h6
  omega

/-- The map set up has at most 48 troops in total. -/
theorem inicializarTerritorios_total (mapa : Mapa) (rand : Nat → Nat) :
    totalTropas (inicializarTerritorios mapa rand) ≤ 48 := by
  unfold totalTropas
  have h := Finset.sum_le_sum
    (fun i (_ : i ∈ (Finset.univ : Finset (Fin MAX_TERRITORIOS))) =>
      (inicializarTerritorios_tropas mapa rand i).2)
  simpa using h

/-- C19. Bounded play: on a map in which every territory has at least 1
troop and whose troops sum to T, a finite sequence of attack requests, with any
names and any dice, has at most T - 6 accepted requests; from a map produced by
`inicializarTerritorios` it has at most 42. -/
theorem jogo_limitado (mapa : Mapa) (pedidos : List Pedido) :
    ((∀ i, 1 ≤ (mapa i).tropas) →
      (numAceitos mapa pedidos : Int) ≤ totalTropas mapa - 6) ∧
    (∀ rand : Nat → Nat, numAceitos (inicializarTerritorios mapa rand) pedidos ≤ 42) := by
  constructor
  · exact numAceitos_limite mapa pedidos
  · intro rand
    have h := numAceitos_limite (inicializarTerritorios mapa rand) pedidos
      (fun i => (inicializarTerritorios_tropas mapa rand i).1)
    have ht := inicializarTerritorios_total mapa rand
    omega

/-- Witness of C19: on `mapaPovoado`, of 16 troops, two of the three requests
of `pedidosExemplo` are accepted, and 2 is at most 16 - 6. -/
theorem jogo_limitado_witness :
    numAceitos mapaPovoado pedidosExemplo = 2 ∧ totalTropas mapaPovoado = 16 ∧
    (numAceitos mapaPovoado pedidosExemplo : Int) ≤ totalTropas mapaPovoado - 6 :=
  ⟨by decide, by decide, (jogo_limitado mapaPovoado pedidosExemplo).1 (by decide)⟩

/-- One battle keeps the colour of every record. -/
theorem faseDeAtaque_cor (mapa : Mapa) (p : Pedido) (i : Fin MAX_TERRITORIOS) :
    ((faseDeAtaque mapa p.origem p.destino p.rA p.rD).1 i).cor = (mapa i).cor := by
  cases p.origem with
  | none => simp [faseDeAtaque]
  | some o =>
    cases p.destino with
    | none => simp [faseDeAtaque]
    | some d =>
      simp only [faseDeAtaque]
      split_ifs
      · rfl
      · exact (simularAtaque_moldura mapa _ _ p.rA p.rD i).2.1

/-- A sequence of requests keeps the colour of every record. -/
theorem jogar_cor (mapa : Mapa) (pedidos : List Pedido) (i : Fin MAX_TERRITORIOS) :
    (jogar mapa pedidos i).cor = (mapa i).cor := by
  induction pedidos generalizing mapa with
  | nil => rfl
  | cons p ps ih =>
    simp only [jogar]
    rw [ih, faseDeAtaque_cor]

/-- The territories of "Jogador" of a colour are among the territories of
that colour. -/
theorem numJogadorDaCor_le (mapa : Mapa) (cor : String) :
    numJogadorDaCor mapa cor ≤ numDaCor mapa cor := by
  unfold numJogadorDaCor numDaCor
  apply Finset.card_le_card
  intro i hi
  simp only [Finset.mem_filter, Finset.mem_univ, true_and] at hi ⊢
  exact hi.2

/-- C20. A colour mission that can never be fulfilled: when fewer than
`targetNumber` territories of the map have the colour `targetColor`,
`verificarVitoria` returns 0 for a mission of kind 4 on that map and on every
map reached from it by a finite sequence of attack requests with any dice. -/
theorem missao_cor_impossivel (mapa : Mapa) (m : Missao) (pedidos : List Pedido)
    (h4 : m.idMissao = 4) (hlt : (numDaCor mapa m.targetColor.s : Int) < m.targetNumber) :
    verificarVitoria (some mapa) (some m) = 0 ∧
    verificarVitoria (some (jogar mapa pedidos)) (some m) = 0 := by
  have hv : ∀ w : Mapa, (numDaCor w m.targetColor.s : Int) < m.targetNumber →
      verificarVitoria (some w) (some m) = 0 := by
    intro w hw
    have hle := numJogadorDaCor_le w m.targetColor.s
    have hlt2 : ¬ (m.targetNumber ≤ (numJogadorDaCor w m.targetColor.s : Int)) := by omega
    simp [verificarVitoria, h4, contarJogadorDaCor_numJogadorDaCor, boolInt, hlt2]
  refine ⟨hv mapa hlt, hv _ ?_⟩
  have hcor : numDaCor (jogar mapa pedidos) m.targetColor.s = numDaCor mapa m.targetColor.s := by
    unfold numDaCor
    simp only [jogar_cor]
  rw [hcor]
  exact hlt

/-- Witness of C20: `mapaExemplo` has a single "Preto" territory, so the
mission asking for 2 of them is not fulfilled before or after the requests of
`pedidosExemplo`. -/
theorem missao_cor_impossivel_witness :
    verificarVitoria (some mapaExemplo)
      (some { missaoNumero 4 2 with targetColor := ⟨"Preto", by decide⟩ }) = 0 ∧
    verificarVitoria (some (jogar mapaExemplo pedidosExemplo))
      (some { missaoNumero 4 2 with targetColor := ⟨"Preto", by decide⟩ }) = 0 :=
  missao_cor_impossivel mapaExemplo
    { missaoNumero 4 2 with targetColor := ⟨"Preto", by decide⟩ } pedidosExemplo
    (by decide) (by decide)

end War
